import Mathlib

/-!
Shallow embedding of the SSD1322 OLED-controller emulation core
(`device` package: `BaseDevice`, `MemoryHelper`, `SSD1322`), together
with theorems settling the frozen specification claims about it.

Go `byte` values are modelled as `Nat` (callers supply values `< 256`;
the arithmetic in the embedded functions mirrors the source
operation-for-operation).  Go `int` values that can be negative
(pixel coordinates, dirty-region fields, window cursors) are modelled
as `Int`; `int` values that are always non-negative by construction
(widths, heights, buffer offsets) are modelled as `Nat`.  Fallible Go
functions returning `error` are modelled with `Except String`.
-/

namespace OledEmu

/-- `PixelFormat` defines how pixels are packed in VRAM (source: `device` package). -/
inductive PixelFormat where
  | HorizontalNibble
  | VerticalByte
  | RGB888
deriving DecidableEq, Repr

/-- `Config` holds device configuration (source: `device.Config`).  The Go field
names are capitalised; here they are lower-cased to fit Lean conventions. -/
structure Config where
  width : Nat
  height : Nat
  colorDepth : Nat
  pixelFormat : PixelFormat
  columnOffset : Nat
deriving DecidableEq, Repr

/-- VRAM byte count computed by `BaseDevice.allocateVRAM` for each format.
For `HorizontalNibble` the source uses 480 internal columns regardless of the
visible width. -/
def Config.vramSize (c : Config) : Nat :=
  match c.pixelFormat with
  | .HorizontalNibble => 480 * c.height / 2
  | .VerticalByte => c.width * ((c.height + 7) / 8)
  | .RGB888 => c.width * c.height * 3

/-- `BaseDevice` provides common device state (source: `device.BaseDevice`). -/
structure BaseDevice where
  config : Config
  vram : List Nat
  dirtyX0 : Int
  dirtyY0 : Int
  dirtyX1 : Int
  dirtyY1 : Int
  hasDirty : Bool
deriving DecidableEq, Repr

/-- `NewBaseDevice` (source): allocates VRAM from the configuration and starts
with no dirty region.  (The Go constructor panics on non-positive dimensions;
dimensions are `Nat` here and the claims only use positive ones.) -/
def NewBaseDevice (config : Config) : BaseDevice :=
  { config := config
    vram := List.replicate config.vramSize 0
    dirtyX0 := -1
    dirtyY0 := -1
    dirtyX1 := -1
    dirtyY1 := -1
    hasDirty := false }

/-- `BaseDevice.Width` (source). -/
def BaseDevice.Width (bd : BaseDevice) : Nat := bd.config.width

/-- `BaseDevice.Height` (source). -/
def BaseDevice.Height (bd : BaseDevice) : Nat := bd.config.height

/-- `BaseDevice.GetDirtyRegion` (source): `(-1,-1,-1,-1)` when nothing is dirty. -/
def BaseDevice.GetDirtyRegion (bd : BaseDevice) : Int × Int × Int × Int :=
  if !bd.hasDirty then (-1, -1, -1, -1)
  else (bd.dirtyX0, bd.dirtyY0, bd.dirtyX1, bd.dirtyY1)

/-- `BaseDevice.ClearDirtyRegion` (source). -/
def BaseDevice.ClearDirtyRegion (bd : BaseDevice) : BaseDevice :=
  { bd with hasDirty := false, dirtyX0 := -1, dirtyY0 := -1, dirtyX1 := -1, dirtyY1 := -1 }

/-- `BaseDevice.MarkDirty` (source): clamps the rectangle (lower bounds at 0,
upper bounds at width-1/height-1), then either adopts it (no dirty region yet)
or grows the recorded box component-wise. -/
def BaseDevice.MarkDirty (bd : BaseDevice) (x0 y0 x1 y1 : Int) : BaseDevice :=
  let x0 := if x0 < 0 then 0 else x0
  let y0 := if y0 < 0 then 0 else y0
  let x1 := if x1 ≥ (bd.config.width : Int) then (bd.config.width : Int) - 1 else x1
  let y1 := if y1 ≥ (bd.config.height : Int) then (bd.config.height : Int) - 1 else y1
  if !bd.hasDirty then
    { bd with dirtyX0 := x0, dirtyY0 := y0, dirtyX1 := x1, dirtyY1 := y1, hasDirty := true }
  else
    { bd with
      dirtyX0 := if x0 < bd.dirtyX0 then x0 else bd.dirtyX0
      dirtyY0 := if y0 < bd.dirtyY0 then y0 else bd.dirtyY0
      dirtyX1 := if x1 > bd.dirtyX1 then x1 else bd.dirtyX1
      dirtyY1 := if y1 > bd.dirtyY1 then y1 else bd.dirtyY1 }

/-- `MemoryHelper` (source): utility record for packed pixel access. -/
structure MemoryHelper where
  width : Nat
  height : Nat
  pixelFormat : PixelFormat
  colOffset : Nat
deriving DecidableEq, Repr

/-- `NewMemoryHelper` (source). -/
def NewMemoryHelper (width height : Nat) (pixelFormat : PixelFormat) (colOffset : Nat) :
    MemoryHelper :=
  { width := width, height := height, pixelFormat := pixelFormat, colOffset := colOffset }

/-- `MemoryHelper.PixelToByteOffsetNibble` (source): bounds-check, then
`byteOffset = (y*480 + x + colOffset) / 2`, `nibbleIndex = (x + colOffset) % 2`. -/
def MemoryHelper.PixelToByteOffsetNibble (mh : MemoryHelper) (x y : Int) :
    Except String (Nat × Nat) :=
  if x < 0 ∨ x ≥ (mh.width : Int) ∨ y < 0 ∨ y ≥ (mh.height : Int) then
    .error "pixel out of bounds"
  else
    let columns : Nat := 480
    let byteOffset := (y.toNat * columns + x.toNat + mh.colOffset) / 2
    let nibbleIndex := (x.toNat + mh.colOffset) % 2
    .ok (byteOffset, nibbleIndex)

/-- `MemoryHelper.SetPixelNibble` (source): locate, bounds-check the byte
offset, mask the colour to 4 bits, and update only the addressed nibble. -/
def MemoryHelper.SetPixelNibble (mh : MemoryHelper) (vram : List Nat) (x y : Int)
    (color : Nat) : Except String (List Nat) :=
  match mh.PixelToByteOffsetNibble x y with
  | .error e => .error e
  | .ok (byteOffset, nibbleIndex) =>
    if byteOffset ≥ vram.length then .error "VRAM offset out of bounds"
    else
      let color := color &&& 0x0F
      let oldByte := vram.getD byteOffset 0
      if nibbleIndex = 0 then
        .ok (vram.set byteOffset ((oldByte &&& 0xF0) ||| color))
      else
        .ok (vram.set byteOffset ((oldByte &&& 0x0F) ||| (color <<< 4)))

/-- `MemoryHelper.GetPixelNibble` (source). -/
def MemoryHelper.GetPixelNibble (mh : MemoryHelper) (vram : List Nat) (x y : Int) :
    Except String Nat :=
  match mh.PixelToByteOffsetNibble x y with
  | .error e => .error e
  | .ok (byteOffset, nibbleIndex) =>
    if byteOffset ≥ vram.length then .error "VRAM offset out of bounds"
    else if nibbleIndex = 0 then .ok (vram.getD byteOffset 0 &&& 0x0F)
    else .ok ((vram.getD byteOffset 0 >>> 4) &&& 0x0F)

/-- SSD1322 command codes (source constants). -/
def CmdSetColumnAddress : Nat := 0x15

def CmdSetRowAddress : Nat := 0x75

def CmdWriteRAM : Nat := 0x5C

def CmdReadRAM : Nat := 0x5D

def CmdSetContrast : Nat := 0xC1

def CmdMasterContrast : Nat := 0xC7

def CmdSetRemap : Nat := 0xA0

def CmdSetStartLine : Nat := 0xA1

def CmdDisplayOffset : Nat := 0xA2

def CmdDisplayMode : Nat := 0xA4

def CmdInvertDisplay : Nat := 0xA6

def CmdSetMultiplexRatio : Nat := 0xCA

def CmdSleepMode : Nat := 0xAE

def CmdNormalDisplay : Nat := 0xAF

def CmdHorizontalScroll : Nat := 0x26

def CmdContinuousScroll : Nat := 0x27

def CmdDeactivateScroll : Nat := 0x2E

def CmdActivateScroll : Nat := 0x2F

def CmdSetClockDivider : Nat := 0xB3

def CmdSetPhaseLength : Nat := 0xB1

def CmdEnhanceDisplay : Nat := 0xB4

def CmdSetPrecharge : Nat := 0xBB

def CmdSetVCOMH : Nat := 0xBE

def CmdGrayscaleTable : Nat := 0xB9

def CmdCommandLock : Nat := 0xFD

/-- `SSD1322` controller state (source: `device.SSD1322`, embedding the
`BaseDevice` it wraps and its `MemoryHelper`). -/
structure SSD1322 extends BaseDevice where
  memory : MemoryHelper
  commandLocked : Bool
  displayOn : Bool
  dataMode : Bool
  contrastLevel : Nat
  masterCurrentLevel : Nat
  invertDisplay : Bool
  columnStart : Int
  columnEnd : Int
  rowStart : Int
  rowEnd : Int
  currentColumn : Int
  currentRow : Int
  scrollEnabled : Bool
  startLine : Int
  displayOffset : Int
  multiplexRatio : Nat
  clockDivider : Nat
  phaseLength : Nat
  prechargeVoltage : Nat
  vcomhLevel : Nat
  remapSettings : Nat
  grayscaleTableMode : Int
deriving DecidableEq, Repr

/-- `SSD1322.Width` (via `BaseDevice.Width`). -/
def SSD1322.Width (ssd : SSD1322) : Nat := ssd.toBaseDevice.Width

/-- `SSD1322.Height` (via `BaseDevice.Height`). -/
def SSD1322.Height (ssd : SSD1322) : Nat := ssd.toBaseDevice.Height

/-- `NewSSD1322` (source): power-on defaults. -/
def NewSSD1322 (width height : Nat) : SSD1322 :=
  let config : Config :=
    { width := width, height := height, colorDepth := 4,
      pixelFormat := .HorizontalNibble, columnOffset := 28 }
  { toBaseDevice := NewBaseDevice config
    memory := NewMemoryHelper width height .HorizontalNibble 28
    commandLocked := true
    displayOn := false
    dataMode := false
    contrastLevel := 0x7F
    masterCurrentLevel := 0x0F
    invertDisplay := false
    columnStart := 0
    columnEnd := (width : Int) - 1
    rowStart := 0
    rowEnd := (height : Int) - 1
    currentColumn := 0
    currentRow := 0
    scrollEnabled := false
    startLine := 0
    displayOffset := 0
    multiplexRatio := 0x3F
    clockDivider := 0x00
    phaseLength := 0x74
    prechargeVoltage := 0x3C
    vcomhLevel := 0x07
    remapSettings := 0x14
    grayscaleTableMode := 0 }

/-- `SSD1322.ProcessCommand` (source): the Go function's two `switch`
statements flattened into one decision chain (the first `switch` returns in
each of its cases, so the chains compose sequentially; the `commandLocked`
check between the two switches has an empty body in the source and is elided).
Every path returns a nil error (`Except.ok`). -/
def SSD1322.ProcessCommand (ssd : SSD1322) (cmd : Nat) (data : List Nat) :
    Except String SSD1322 :=
  if cmd = CmdCommandLock then
    match data with
    | d0 :: _ =>
      if d0 = 0xB1 then .ok { ssd with commandLocked := false }
      else if d0 = 0xB0 then .ok { ssd with commandLocked := true }
      else .ok ssd
    | [] => .ok ssd
  else if cmd = CmdNormalDisplay then .ok { ssd with displayOn := true }
  else if cmd = CmdSleepMode then .ok { ssd with displayOn := false }
  else if cmd = CmdWriteRAM then .ok { ssd with dataMode := true }
  else if cmd = CmdReadRAM then .ok { ssd with dataMode := true }
  else if cmd = CmdSetColumnAddress then
    match data with
    | d0 :: d1 :: _ =>
      .ok { ssd with columnStart := (d0 : Int), columnEnd := (d1 : Int),
                     currentColumn := (d0 : Int) }
    | _ => .ok ssd
  else if cmd = CmdSetRowAddress then
    match data with
    | d0 :: d1 :: _ =>
      .ok { ssd with rowStart := (d0 : Int), rowEnd := (d1 : Int),
                     currentRow := (d0 : Int) }
    | _ => .ok ssd
  else if cmd = CmdSetContrast then
    match data with
    | d0 :: _ => .ok { ssd with contrastLevel := d0 }
    | [] => .ok ssd
  else if cmd = CmdMasterContrast then
    match data with
    | d0 :: _ => .ok { ssd with masterCurrentLevel := d0 &&& 0x0F }
    | [] => .ok ssd
  else if cmd = CmdInvertDisplay then
    match data with
    | d0 :: _ => .ok { ssd with invertDisplay := (d0 &&& 0x01) != 0 }
    | [] => .ok ssd
  else if cmd = CmdSetMultiplexRatio then
    match data with
    | d0 :: _ => .ok { ssd with multiplexRatio := d0 }
    | [] => .ok ssd
  else if cmd = CmdSetStartLine then
    match data with
    | d0 :: _ => .ok { ssd with startLine := ((d0 &&& 0x7F : Nat) : Int) }
    | [] => .ok ssd
  else if cmd = CmdDisplayOffset then
    match data with
    | d0 :: _ => .ok { ssd with displayOffset := (d0 : Int) }
    | [] => .ok ssd
  else if cmd = CmdSetRemap then
    match data with
    | d0 :: _ => .ok { ssd with remapSettings := d0 }
    | [] => .ok ssd
  else if cmd = CmdSetClockDivider then
    match data with
    | d0 :: _ => .ok { ssd with clockDivider := d0 }
    | [] => .ok ssd
  else if cmd = CmdSetPhaseLength then
    match data with
    | d0 :: _ => .ok { ssd with phaseLength := d0 }
    | [] => .ok ssd
  else if cmd = CmdEnhanceDisplay then .ok ssd
  else if cmd = CmdSetPrecharge then
    match data with
    | d0 :: _ => .ok { ssd with prechargeVoltage := d0 }
    | [] => .ok ssd
  else if cmd = CmdSetVCOMH then
    match data with
    | d0 :: _ => .ok { ssd with vcomhLevel := d0 }
    | [] => .ok ssd
  else if cmd = CmdGrayscaleTable then
    match data with
    | d0 :: _ => .ok { ssd with grayscaleTableMode := (d0 : Int) }
    | [] => .ok ssd
  else if cmd = CmdDeactivateScroll then .ok { ssd with scrollEnabled := false }
  else if cmd = CmdActivateScroll then .ok { ssd with scrollEnabled := true }
  else if cmd = CmdHorizontalScroll then
    if data.length ≥ 5 then .ok { ssd with scrollEnabled := true } else .ok ssd
  else if cmd = CmdDisplayMode then .ok ssd
  else .ok ssd

/-- One nibble-write block of the `SSD1322.WriteData` loop body (source): call
`SetPixelNibble` at the display coordinate and mark the pixel dirty when it
succeeds, drop the pixel silently when it fails.  The source repeats this
five-line block once per nibble; it is factored here for reuse. -/
def SSD1322.writeNibbleAt (ssd : SSD1322) (displayCol row : Int) (pixel : Nat) : SSD1322 :=
  match ssd.memory.SetPixelNibble ssd.vram displayCol row pixel with
  | .ok newVram =>
    { ssd with toBaseDevice :=
        ({ ssd.toBaseDevice with vram := newVram }).MarkDirty displayCol row displayCol row }
  | .error _ => ssd

/-- The cursor-advance block of the `SSD1322.WriteData` loop body (source):
`currentColumn++`, wrapping past `columnEnd` to `columnStart` with a row
increment, and wrapping the row past `rowEnd` back to `rowStart`. -/
def SSD1322.advanceCursor (ssd : SSD1322) : SSD1322 :=
  let cc : Int := ssd.currentColumn + 1
  if cc > ssd.columnEnd then
    let cr : Int := ssd.currentRow + 1
    if cr > ssd.rowEnd then
      { ssd with currentColumn := ssd.columnStart, currentRow := ssd.rowStart }
    else
      { ssd with currentColumn := ssd.columnStart, currentRow := cr }
  else { ssd with currentColumn := cc }

/-- Body of the `for _, byteVal := range data` loop of `SSD1322.WriteData`
(source): writes the two nibbles of one payload byte at the cursor and
advances/wraps the cursor, all guarded exactly as in the source. -/
def SSD1322.writeDataByte (ssd : SSD1322) (byteVal : Nat) : SSD1322 :=
  let col := ssd.currentColumn
  let row := ssd.currentRow
  if ssd.columnStart ≤ col ∧ col ≤ ssd.columnEnd ∧ ssd.rowStart ≤ row ∧ row ≤ ssd.rowEnd then
    let displayCol := col - ssd.columnStart
    if displayCol < (ssd.Width : Int) then
      let ssd1 : SSD1322 := ssd.writeNibbleAt displayCol row (byteVal &&& 0x0F)
      let displayCol2 := displayCol + 1
      let ssd2 : SSD1322 :=
        if displayCol2 < (ssd1.Width : Int) then
          ssd1.writeNibbleAt displayCol2 row ((byteVal >>> 4) &&& 0x0F)
        else ssd1
      ssd2.advanceCursor
    else ssd
  else ssd

/-- `SSD1322.WriteData` (source): errors when not in data mode, otherwise
processes each payload byte in order and returns a nil error. -/
def SSD1322.WriteData (ssd : SSD1322) (data : List Nat) : Except String SSD1322 :=
  if !ssd.dataMode then .error "not in data write mode"
  else .ok (data.foldl SSD1322.writeDataByte ssd)

/-- `SSD1322.SetPixel` (source): viewport bounds check, nibble write, dirty mark. -/
def SSD1322.SetPixel (ssd : SSD1322) (x y : Int) (color : Nat) : Except String SSD1322 :=
  if x < 0 ∨ x ≥ (ssd.Width : Int) ∨ y < 0 ∨ y ≥ (ssd.Height : Int) then
    .error "pixel out of bounds"
  else
    match ssd.memory.SetPixelNibble ssd.vram x y (color &&& 0x0F) with
    | .error e => .error e
    | .ok newVram =>
      .ok { ssd with toBaseDevice :=
              ({ ssd.toBaseDevice with vram := newVram }).MarkDirty x y x y }

/-- `SSD1322.GetPixel` (source). -/
def SSD1322.GetPixel (ssd : SSD1322) (x y : Int) : Except String Nat :=
  ssd.memory.GetPixelNibble ssd.vram x y

/-- `SSD1322.Reset` (source): zero-fills VRAM, restores the scalars the source
lists (and only those), marks the whole viewport dirty, returns a nil error. -/
def SSD1322.Reset (ssd : SSD1322) : Except String SSD1322 :=
  let r :=
    { ssd with
      toBaseDevice := { ssd.toBaseDevice with vram := List.replicate ssd.vram.length 0 }
      commandLocked := true
      displayOn := false
      dataMode := false
      contrastLevel := 0x7F
      masterCurrentLevel := 0x0F
      invertDisplay := false
      columnStart := 0
      columnEnd := (ssd.Width : Int) - 1
      rowStart := 0
      rowEnd := (ssd.Height : Int) - 1
      currentColumn := 0
      currentRow := 0
      scrollEnabled := false
      startLine := 0
      displayOffset := 0 }
  .ok { r with toBaseDevice :=
          r.toBaseDevice.MarkDirty 0 0 ((r.Width : Int) - 1) ((r.Height : Int) - 1) }

/-! ### Nibble-packing bit arithmetic -/

/-- A value below 16 has no bits at positions 4 and above. -/
theorem testBit_of_lt_16 {c : Nat} (hc : c < 16) {i : Nat} (hi : ¬ i < 4) :
    c.testBit i = false := by
  apply Nat.testBit_lt_two_pow
  have h16 : (16 : Nat) ≤ 2 ^ i := by
    calc (16 : Nat) = 2 ^ 4 := by norm_num
    _ ≤ 2 ^ i := Nat.pow_le_pow_right (by norm_num) (by omega)
  omega

/-- Writing the low nibble and reading it back returns the written value. -/
theorem lowNib_roundtrip (b c : Nat) (hc : c < 16) : ((b &&& 0xF0) ||| c) &&& 0x0F = c := by
  apply Nat.eq_of_testBit_eq
  intro i
  have h240 : (240 : Nat) = 15 <<< 4 := by decide
  have h15 : (15 : Nat) = 2 ^ 4 - 1 := by decide
  simp only [Nat.testBit_and, Nat.testBit_or, h240, h15, Nat.testBit_shiftLeft,
    Nat.testBit_two_pow_sub_one]
  by_cases hi : i < 4
  · simp [hi, show ¬ i ≥ 4 by omega]
  · simp [hi, testBit_of_lt_16 hc hi]

/-- Writing the high nibble and reading it back returns the written value. -/
theorem highNib_roundtrip (b c : Nat) (hc : c < 16) :
    (((b &&& 0x0F) ||| (c <<< 4)) >>> 4) &&& 0x0F = c := by
  apply Nat.eq_of_testBit_eq
  intro i
  have h15 : (15 : Nat) = 2 ^ 4 - 1 := by decide
  simp only [Nat.testBit_and, Nat.testBit_or, Nat.testBit_shiftRight, Nat.testBit_shiftLeft,
    h15, Nat.testBit_two_pow_sub_one]
  by_cases hi : i < 4
  · have hb : b.testBit (4 + i) = false ∨ (b &&& 15).testBit (4 + i) = false := by
      right
      have h16 : b &&& 15 < 16 := Nat.lt_of_le_of_lt Nat.and_le_right (by norm_num)
      exact testBit_of_lt_16 h16 (by omega)
    rcases hb with h | h
    · simp [hi, h, show (4:Nat) + i ≥ 4 by omega, show 4 + i - 4 = i by omega,
        Nat.testBit_and, h15, Nat.testBit_two_pow_sub_one]
    · simp [hi, h, show (4:Nat) + i ≥ 4 by omega, show 4 + i - 4 = i by omega]
  · simp [hi, testBit_of_lt_16 hc hi]

/-- Writing the low nibble leaves the high nibble unchanged. -/
theorem lowNib_preserves_high (b c : Nat) (hc : c < 16) :
    (((b &&& 0xF0) ||| c) >>> 4) &&& 0x0F = (b >>> 4) &&& 0x0F := by
  apply Nat.eq_of_testBit_eq
  intro i
  have h240 : (240 : Nat) = 15 <<< 4 := by decide
  have h15 : (15 : Nat) = 2 ^ 4 - 1 := by decide
  simp only [Nat.testBit_and, Nat.testBit_or, Nat.testBit_shiftRight, Nat.testBit_shiftLeft,
    h240, h15, Nat.testBit_two_pow_sub_one]
  by_cases hi : i < 4
  · simp [hi, testBit_of_lt_16 hc (show ¬ 4 + i < 4 by omega),
      show (4:Nat) + i ≥ 4 by omega, show 4 + i - 4 = i by omega]
  · simp [hi]

/-- Writing the high nibble leaves the low nibble unchanged. -/
theorem highNib_preserves_low (b c : Nat) :
    ((b &&& 0x0F) ||| (c <<< 4)) &&& 0x0F = b &&& 0x0F := by
  apply Nat.eq_of_testBit_eq
  intro i
  have h15 : (15 : Nat) = 2 ^ 4 - 1 := by decide
  simp only [Nat.testBit_and, Nat.testBit_or, Nat.testBit_shiftLeft, h15,
    Nat.testBit_two_pow_sub_one]
  by_cases hi : i < 4
  · simp [hi, show ¬ i ≥ 4 by omega]
  · simp [hi]

/-- Masking to 4 bits yields a value below 16. -/
theorem land_15_lt_16 (a : Nat) : a &&& 0x0F < 16 :=
  Nat.lt_of_le_of_lt Nat.and_le_right (by norm_num)

/-- Masking to 4 bits twice equals masking once. -/
theorem land_15_idem (a : Nat) : (a &&& 0x0F) &&& 0x0F = a &&& 0x0F := by
  apply Nat.eq_of_testBit_eq
  intro i
  simp [Nat.testBit_and, Bool.and_assoc]

/-! ### Structural helper lemmas -/

/-- Byte offset computed by `PixelToByteOffsetNibble` for in-bounds coordinates. -/
def MemoryHelper.nibOff (mh : MemoryHelper) (x y : Int) : Nat :=
  (y.toNat * 480 + x.toNat + mh.colOffset) / 2

/-- Nibble index computed by `PixelToByteOffsetNibble` for in-bounds coordinates. -/
def MemoryHelper.nibIdx (mh : MemoryHelper) (x : Int) : Nat :=
  (x.toNat + mh.colOffset) % 2

/-- In-bounds coordinates make `PixelToByteOffsetNibble` succeed with
the documented offset and nibble index. -/
theorem locate_ok (mh : MemoryHelper) (x y : Int) (hx0 : 0 ≤ x) (hx : x < (mh.width : Int))
    (hy0 : 0 ≤ y) (hy : y < (mh.height : Int)) :
    mh.PixelToByteOffsetNibble x y = .ok (mh.nibOff x y, mh.nibIdx x) := by
  unfold MemoryHelper.PixelToByteOffsetNibble
  rw [if_neg (by omega)]
  rfl

/-- The byte `SetPixelNibble` stores for a given prior byte. -/
def MemoryHelper.newNibByte (mh : MemoryHelper) (x : Int) (oldByte color : Nat) : Nat :=
  if mh.nibIdx x = 0 then (oldByte &&& 0xF0) ||| (color &&& 0x0F)
  else (oldByte &&& 0x0F) ||| ((color &&& 0x0F) <<< 4)

/-- Successful `SetPixelNibble` characterised: for in-bounds coordinates and a
valid byte offset it replaces exactly the addressed byte. -/
theorem setPixelNibble_ok (mh : MemoryHelper) (vram : List Nat) (x y : Int) (color : Nat)
    (hx0 : 0 ≤ x) (hx : x < (mh.width : Int)) (hy0 : 0 ≤ y) (hy : y < (mh.height : Int))
    (hoff : mh.nibOff x y < vram.length) :
    mh.SetPixelNibble vram x y color =
      .ok (vram.set (mh.nibOff x y) (mh.newNibByte x (vram.getD (mh.nibOff x y) 0) color)) := by
  unfold MemoryHelper.SetPixelNibble
  rw [locate_ok mh x y hx0 hx hy0 hy]
  dsimp only
  rw [if_neg (by omega)]
  unfold MemoryHelper.newNibByte
  by_cases h : mh.nibIdx x = 0 <;> simp [h]

/-- Inversion for successful `SetPixelNibble`. -/
theorem setPixelNibble_ok_inv (mh : MemoryHelper) (vram : List Nat) (x y : Int) (color : Nat)
    (vram' : List Nat) (h : mh.SetPixelNibble vram x y color = .ok vram') :
    0 ≤ x ∧ x < (mh.width : Int) ∧ 0 ≤ y ∧ y < (mh.height : Int) ∧
      mh.nibOff x y < vram.length ∧
      vram' = vram.set (mh.nibOff x y) (mh.newNibByte x (vram.getD (mh.nibOff x y) 0) color) := by
  unfold MemoryHelper.SetPixelNibble MemoryHelper.PixelToByteOffsetNibble at h
  by_cases hb : x < 0 ∨ x ≥ (mh.width : Int) ∨ y < 0 ∨ y ≥ (mh.height : Int)
  · rw [if_pos hb] at h
    exact absurd h (by simp)
  · rw [if_neg hb] at h
    simp only at h
    by_cases hoff : (y.toNat * 480 + x.toNat + mh.colOffset) / 2 ≥ vram.length
    · rw [if_pos hoff] at h
      exact absurd h (by simp)
    · rw [if_neg hoff] at h
      refine ⟨by omega, by omega, by omega, by omega, by
        unfold MemoryHelper.nibOff; omega, ?_⟩
      unfold MemoryHelper.newNibByte MemoryHelper.nibIdx MemoryHelper.nibOff
      by_cases hnib : (x.toNat + mh.colOffset) % 2 = 0
      · rw [if_pos hnib] at h
        rw [if_pos hnib]
        exact (Except.ok.injEq _ _ ▸ h).symm
      · rw [if_neg hnib] at h
        rw [if_neg hnib]
        exact (Except.ok.injEq _ _ ▸ h).symm

/-- `GetPixelNibble` on in-bounds coordinates with a valid offset reads the
addressed nibble. -/
theorem getPixelNibble_ok (mh : MemoryHelper) (vram : List Nat) (x y : Int)
    (hx0 : 0 ≤ x) (hx : x < (mh.width : Int)) (hy0 : 0 ≤ y) (hy : y < (mh.height : Int))
    (hoff : mh.nibOff x y < vram.length) :
    mh.GetPixelNibble vram x y =
      .ok (if mh.nibIdx x = 0 then vram.getD (mh.nibOff x y) 0 &&& 0x0F
           else (vram.getD (mh.nibOff x y) 0 >>> 4) &&& 0x0F) := by
  unfold MemoryHelper.GetPixelNibble
  rw [locate_ok mh x y hx0 hx hy0 hy]
  dsimp only
  rw [if_neg (by omega)]
  by_cases h : mh.nibIdx x = 0 <;> simp [h]

/-- `MarkDirty` does not change VRAM. -/
theorem MarkDirty_vram (bd : BaseDevice) (a b c d : Int) :
    (bd.MarkDirty a b c d).vram = bd.vram := by
  cases h : bd.hasDirty <;> simp [BaseDevice.MarkDirty, h]

/-- `MarkDirty` does not change the configuration. -/
theorem MarkDirty_config (bd : BaseDevice) (a b c d : Int) :
    (bd.MarkDirty a b c d).config = bd.config := by
  cases h : bd.hasDirty <;> simp [BaseDevice.MarkDirty, h]

/-- `getD` after `set` at the written index. -/
theorem getD_set_self (l : List Nat) (i : Nat) (a : Nat) (h : i < l.length) :
    (l.set i a).getD i 0 = a := by
  rw [List.getD_eq_getElem?_getD, List.getElem?_set_self h]
  rfl

/-- `getD` after `set` at a different index. -/
theorem getD_set_ne (l : List Nat) (i j : Nat) (a : Nat) (h : i ≠ j) :
    (l.set i a).getD j 0 = l.getD j 0 := by
  rw [List.getD_eq_getElem?_getD, List.getElem?_set_ne h, ← List.getD_eq_getElem?_getD]

/-- Extract the state of a successful device call (used to state concrete runs). -/
def okOr (x : Except String SSD1322) (d : SSD1322) : SSD1322 :=
  match x with
  | .ok s => s
  | .error _ => d

/-- `okOr` on a success returns the payload. -/
theorem okOr_ok (s d : SSD1322) : okOr (.ok s) d = s := rfl

/-- Extract the buffer of a successful memory call (used to state concrete runs). -/
def listOkOr (x : Except String (List Nat)) (d : List Nat) : List Nat :=
  match x with
  | .ok l => l
  | .error _ => d

/-! ### Claim C5 -/

/-- Claim C5: for every in-bounds coordinate and every value `v`, after
`SetPixel x y v` succeeds, `GetPixel x y` returns exactly `v &&& 0x0F`
(the value masked to the 4-bit packed-nibble width). -/
theorem claim_C5_set_get_roundtrip (ssd : SSD1322) (x y : Int) (v : Nat) (s' : SSD1322)
    (h : ssd.SetPixel x y v = .ok s') : s'.GetPixel x y = .ok (v &&& 0x0F) := by
  unfold SSD1322.SetPixel at h
  by_cases hb : x < 0 ∨ x ≥ (ssd.Width : Int) ∨ y < 0 ∨ y ≥ (ssd.Height : Int)
  · rw [if_pos hb] at h
    exact absurd h (by simp)
  · rw [if_neg hb] at h
    cases hm : ssd.memory.SetPixelNibble ssd.vram x y (v &&& 0x0F) with
    | error e => rw [hm] at h; exact absurd h (by simp)
    | ok nv =>
      rw [hm] at h
      simp only [Except.ok.injEq] at h
      obtain ⟨hx0, hxw, hy0, hyh, hoff, hnv⟩ :=
        setPixelNibble_ok_inv ssd.memory ssd.vram x y (v &&& 0x0F) nv hm
      subst h
      unfold SSD1322.GetPixel
      show ssd.memory.GetPixelNibble
        ((({ ssd.toBaseDevice with vram := nv }).MarkDirty x y x y).vram) x y = _
      rw [MarkDirty_vram]
      subst hnv
      rw [getPixelNibble_ok ssd.memory _ x y hx0 hxw hy0 hyh
        (by rw [List.length_set]; exact hoff)]
      rw [getD_set_self _ _ _ hoff]
      unfold MemoryHelper.newNibByte
      by_cases hn : ssd.memory.nibIdx x = 0
      · rw [if_pos hn, if_pos hn, land_15_idem, lowNib_roundtrip _ _ (land_15_lt_16 v)]
      · rw [if_neg hn, if_neg hn, land_15_idem, highNib_roundtrip _ _ (land_15_lt_16 v)]

set_option maxRecDepth 8000 in
/-- Witness for C5 at a concrete input: a 16x1 device, pixel (2,0), value 0x1F. -/
theorem claim_C5_set_get_roundtrip_witness :
    (okOr ((NewSSD1322 16 1).SetPixel 2 0 0x1F) (NewSSD1322 16 1)).GetPixel 2 0 =
      .ok 0x0F :=
  claim_C5_set_get_roundtrip (NewSSD1322 16 1) 2 0 0x1F _ (by rfl)

/-! ### Claim C6 -/

/-- Claim C6: a successful `SetPixelNibble` write at `(x,y)` leaves the
co-packed nibble sharing the same storage byte unchanged (the high nibble when
the low nibble is written, and vice versa), and leaves every other VRAM byte
exactly as it was. -/
theorem claim_C6_no_crosstalk (mh : MemoryHelper) (vram : List Nat) (x y : Int) (c : Nat)
    (vram' : List Nat) (h : mh.SetPixelNibble vram x y c = .ok vram') :
    (∀ j, j ≠ mh.nibOff x y → vram'.getD j 0 = vram.getD j 0) ∧
    (mh.nibIdx x = 0 →
      (vram'.getD (mh.nibOff x y) 0 >>> 4) &&& 0x0F =
        (vram.getD (mh.nibOff x y) 0 >>> 4) &&& 0x0F) ∧
    (mh.nibIdx x ≠ 0 →
      vram'.getD (mh.nibOff x y) 0 &&& 0x0F = vram.getD (mh.nibOff x y) 0 &&& 0x0F) ∧
    vram'.length = vram.length := by
  obtain ⟨hx0, hxw, hy0, hyh, hoff, hnv⟩ := setPixelNibble_ok_inv mh vram x y c vram' h
  subst hnv
  refine ⟨?_, ?_, ?_, List.length_set _ _ _⟩
  · intro j hj
    exact getD_set_ne _ _ _ _ (fun he => hj he.symm)
  · intro hn
    rw [getD_set_self _ _ _ hoff]
    unfold MemoryHelper.newNibByte
    rw [if_pos hn]
    exact lowNib_preserves_high _ _ (land_15_lt_16 c)
  · intro hn
    rw [getD_set_self _ _ _ hoff]
    unfold MemoryHelper.newNibByte
    rw [if_neg hn]
    exact highNib_preserves_low _ _

set_option maxRecDepth 8000 in
/-- Witness for C6 at a concrete input: writing pixel (0,0) (byte 14, low
nibble) of a 4x2 helper leaves byte 13 unchanged. -/
theorem claim_C6_no_crosstalk_witness :
    (listOkOr ((NewMemoryHelper 4 2 .HorizontalNibble 28).SetPixelNibble
        (List.replicate 20 0) 0 0 7) []).getD 13 0 =
      (List.replicate 20 0).getD 13 0 :=
  (claim_C6_no_crosstalk (NewMemoryHelper 4 2 .HorizontalNibble 28)
    (List.replicate 20 0) 0 0 7 _ (by rfl)).1 13 (by decide)


/-! ### Claim C7 -/

/-- One pixel write as performed by a drawing client: apply `SetPixel` and keep
the previous state when it reports an error. -/
def SSD1322.applyWrite (s : SSD1322) (w : Int × Int × Nat) : SSD1322 :=
  match s.SetPixel w.1 w.2.1 w.2.2 with
  | .ok s' => s'
  | .error _ => s

/-- A sequence of pixel writes. -/
def SSD1322.applyWrites (s : SSD1322) : List (Int × Int × Nat) → SSD1322
  | [] => s
  | w :: ws => SSD1322.applyWrites (s.applyWrite w) ws

/-- The coordinates of the writes in a sequence that succeed. -/
def SSD1322.writtenCoords (s : SSD1322) : List (Int × Int × Nat) → List (Int × Int)
  | [] => []
  | w :: ws =>
    (match s.SetPixel w.1 w.2.1 w.2.2 with
     | .ok _ => [(w.1, w.2.1)]
     | .error _ => []) ++ SSD1322.writtenCoords (s.applyWrite w) ws

/-- The recorded dirty bounding box contains the coordinate. -/
def dirtyContains (bd : BaseDevice) (x y : Int) : Prop :=
  bd.hasDirty = true ∧ bd.dirtyX0 ≤ x ∧ x ≤ bd.dirtyX1 ∧ bd.dirtyY0 ≤ y ∧ y ≤ bd.dirtyY1

/-- `MarkDirty` never evicts a coordinate from the recorded box. -/
theorem markDirty_mono (bd : BaseDevice) (a b c d x y : Int)
    (h : dirtyContains bd x y) : dirtyContains (bd.MarkDirty a b c d) x y := by
  obtain ⟨hd, h1, h2, h3, h4⟩ := h
  unfold BaseDevice.MarkDirty
  rw [hd]
  rw [if_neg (by simp)]
  refine ⟨rfl, ?_, ?_, ?_, ?_⟩ <;> dsimp only <;> split_ifs <;> omega

/-- An in-bounds single-pixel `MarkDirty` makes the box contain that pixel. -/
theorem markDirty_self_contains (bd : BaseDevice) (x y : Int)
    (hx0 : 0 ≤ x) (hx : x < (bd.config.width : Int))
    (hy0 : 0 ≤ y) (hy : y < (bd.config.height : Int)) :
    dirtyContains (bd.MarkDirty x y x y) x y := by
  unfold BaseDevice.MarkDirty
  cases hd : bd.hasDirty
  · rw [if_pos (by simp)]
    refine ⟨rfl, ?_, ?_, ?_, ?_⟩ <;> dsimp only <;> split_ifs <;> omega
  · rw [if_neg (by simp)]
    refine ⟨rfl, ?_, ?_, ?_, ?_⟩ <;> dsimp only <;> split_ifs <;> omega

/-- Inversion for successful `SSD1322.SetPixel`. -/
theorem setPixel_ok_inv (ssd : SSD1322) (x y : Int) (c : Nat) (s' : SSD1322)
    (h : ssd.SetPixel x y c = .ok s') :
    0 ≤ x ∧ x < (ssd.Width : Int) ∧ 0 ≤ y ∧ y < (ssd.Height : Int) ∧
      ∃ nv, s' = { ssd with toBaseDevice :=
        ({ ssd.toBaseDevice with vram := nv }).MarkDirty x y x y } := by
  unfold SSD1322.SetPixel at h
  by_cases hb : x < 0 ∨ x ≥ (ssd.Width : Int) ∨ y < 0 ∨ y ≥ (ssd.Height : Int)
  · rw [if_pos hb] at h
    exact absurd h (by simp)
  · rw [if_neg hb] at h
    cases hm : ssd.memory.SetPixelNibble ssd.vram x y (c &&& 0x0F) with
    | error e => rw [hm] at h; exact absurd h (by simp)
    | ok nv =>
      rw [hm] at h
      simp only [Except.ok.injEq] at h
      exact ⟨by omega, by omega, by omega, by omega, nv, h.symm⟩

/-- One client write never evicts a coordinate from the dirty box. -/
theorem applyWrite_dirty_mono (s : SSD1322) (w : Int × Int × Nat) (x y : Int)
    (h : dirtyContains s.toBaseDevice x y) :
    dirtyContains (s.applyWrite w).toBaseDevice x y := by
  unfold SSD1322.applyWrite
  cases hm : s.SetPixel w.1 w.2.1 w.2.2 with
  | error e => exact h
  | ok s' =>
    obtain ⟨_, _, _, _, nv, hs'⟩ := setPixel_ok_inv s w.1 w.2.1 w.2.2 s' hm
    subst hs'
    exact markDirty_mono _ _ _ _ _ _ _ h

/-- A sequence of client writes never evicts a coordinate from the dirty box. -/
theorem applyWrites_dirty_mono (ws : List (Int × Int × Nat)) (s : SSD1322) (x y : Int)
    (h : dirtyContains s.toBaseDevice x y) :
    dirtyContains (s.applyWrites ws).toBaseDevice x y := by
  induction ws generalizing s with
  | nil => exact h
  | cons w ws ih => exact ih _ (applyWrite_dirty_mono s w x y h)

/-- Every successfully written coordinate ends up inside the final dirty box. -/
theorem writtenCoords_bounded (ws : List (Int × Int × Nat)) (s : SSD1322) (x y : Int)
    (hmem : (x, y) ∈ s.writtenCoords ws) :
    dirtyContains (s.applyWrites ws).toBaseDevice x y := by
  induction ws generalizing s with
  | nil => simp [SSD1322.writtenCoords] at hmem
  | cons w ws ih =>
    unfold SSD1322.writtenCoords at hmem
    rw [List.mem_append] at hmem
    rcases hmem with hmem | hmem
    · cases hm : s.SetPixel w.1 w.2.1 w.2.2 with
      | error e => rw [hm] at hmem; simp at hmem
      | ok s' =>
        rw [hm] at hmem
        simp only [List.mem_singleton, Prod.mk.injEq] at hmem
        obtain ⟨hx, hy⟩ := hmem
        subst hx; subst hy
        show dirtyContains ((SSD1322.applyWrites (s.applyWrite w) ws).toBaseDevice) w.1 w.2.1
        apply applyWrites_dirty_mono
        obtain ⟨hx0, hxw, hy0, hyh, nv, hs'⟩ := setPixel_ok_inv s w.1 w.2.1 w.2.2 s' hm
        have happ : s.applyWrite w = s' := by
          unfold SSD1322.applyWrite
          rw [hm]
        rw [happ, hs']
        exact markDirty_self_contains _ _ _ hx0 hxw hy0 hyh
    · exact ih _ hmem

/-- Claim C7: immediately after `ClearDirtyRegion`, `GetDirtyRegion` reports
empty; `MarkDirty` only grows the recorded box component-wise while a box is
recorded; and after any sequence of pixel writes following a clear, the dirty
box contains every successfully written coordinate. -/
theorem claim_C7_dirty_tracking :
    (∀ bd : BaseDevice, (bd.ClearDirtyRegion).GetDirtyRegion = (-1, -1, -1, -1)) ∧
    (∀ (bd : BaseDevice) (a b c d : Int), bd.hasDirty = true →
      (bd.MarkDirty a b c d).hasDirty = true ∧
      (bd.MarkDirty a b c d).dirtyX0 ≤ bd.dirtyX0 ∧
      (bd.MarkDirty a b c d).dirtyY0 ≤ bd.dirtyY0 ∧
      bd.dirtyX1 ≤ (bd.MarkDirty a b c d).dirtyX1 ∧
      bd.dirtyY1 ≤ (bd.MarkDirty a b c d).dirtyY1) ∧
    (∀ (s : SSD1322) (ws : List (Int × Int × Nat)) (x y : Int),
      (x, y) ∈ SSD1322.writtenCoords
          { s with toBaseDevice := s.toBaseDevice.ClearDirtyRegion } ws →
      dirtyContains
        ((SSD1322.applyWrites
            { s with toBaseDevice := s.toBaseDevice.ClearDirtyRegion } ws).toBaseDevice)
        x y) := by
  refine ⟨?_, ?_, ?_⟩
  · intro bd
    rfl
  · intro bd a b c d hd
    unfold BaseDevice.MarkDirty
    rw [hd]
    rw [if_neg (by simp)]
    refine ⟨rfl, ?_, ?_, ?_, ?_⟩ <;> dsimp only <;> split_ifs <;> omega
  · intro s ws x y hmem
    exact writtenCoords_bounded ws _ x y hmem

set_option maxRecDepth 8000 in
/-- Witness for C7 at a concrete input: after clearing and writing pixel
(2,0) on a 16x1 device, the dirty box contains (2,0). -/
theorem claim_C7_dirty_tracking_witness :
    dirtyContains
      ((SSD1322.applyWrites
          { NewSSD1322 16 1 with
              toBaseDevice := (NewSSD1322 16 1).toBaseDevice.ClearDirtyRegion }
          [(2, 0, 5)]).toBaseDevice) 2 0 :=
  claim_C7_dirty_tracking.2.2 (NewSSD1322 16 1) [(2, 0, 5)] 2 0 (by decide)

/-! ### Claim C8 -/

/-- The opcodes `ProcessCommand` has a case for, in dispatch order.
(`CmdContinuousScroll` (0x27) is declared as a constant in the source but has
no case in `ProcessCommand`, so it is behaviourally unrecognized.) -/
def recognizedOpcodes : List Nat :=
  [CmdCommandLock, CmdNormalDisplay, CmdSleepMode, CmdWriteRAM, CmdReadRAM,
   CmdSetColumnAddress, CmdSetRowAddress, CmdSetContrast, CmdMasterContrast,
   CmdInvertDisplay, CmdSetMultiplexRatio, CmdSetStartLine, CmdDisplayOffset,
   CmdSetRemap, CmdSetClockDivider, CmdSetPhaseLength, CmdEnhanceDisplay,
   CmdSetPrecharge, CmdSetVCOMH, CmdGrayscaleTable, CmdDeactivateScroll,
   CmdActivateScroll, CmdHorizontalScroll, CmdDisplayMode]

/-- The recognized scalar opcodes that require one argument byte. -/
def oneArgOpcodes : List Nat :=
  [CmdSetContrast, CmdMasterContrast, CmdInvertDisplay, CmdSetMultiplexRatio,
   CmdSetStartLine, CmdDisplayOffset, CmdSetRemap, CmdSetClockDivider,
   CmdSetPhaseLength, CmdSetPrecharge, CmdSetVCOMH, CmdGrayscaleTable]

/-- Claim C8: `ProcessCommand` with an unrecognized opcode (any arguments), or
with a recognized scalar/window opcode given fewer argument bytes than
required, returns no error and leaves the entire state (scalars, window,
cursor, modes, VRAM, dirty region) exactly unchanged. -/
theorem claim_C8_unknown_and_short_noop :
    (∀ (s : SSD1322) (cmd : Nat) (data : List Nat),
      cmd ∉ recognizedOpcodes → s.ProcessCommand cmd data = .ok s) ∧
    (∀ (s : SSD1322) (data : List Nat), data.length < 2 →
      s.ProcessCommand CmdSetColumnAddress data = .ok s ∧
      s.ProcessCommand CmdSetRowAddress data = .ok s) ∧
    (∀ (s : SSD1322) (cmd : Nat), cmd ∈ oneArgOpcodes →
      s.ProcessCommand cmd [] = .ok s) ∧
    (∀ (s : SSD1322) (data : List Nat), data.length < 5 →
      s.ProcessCommand CmdHorizontalScroll data = .ok s) := by
  refine ⟨?_, ?_, ?_, ?_⟩
  · intro s cmd data h
    simp only [recognizedOpcodes, List.mem_cons, List.not_mem_nil, or_false, not_or] at h
    obtain ⟨h1, h2, h3, h4, h5, h6, h7, h8, h9, h10, h11, h12, h13, h14, h15, h16, h17,
      h18, h19, h20, h21, h22, h23, h24⟩ := h
    unfold SSD1322.ProcessCommand
    rw [if_neg h1, if_neg h2, if_neg h3, if_neg h4, if_neg h5, if_neg h6, if_neg h7,
      if_neg h8, if_neg h9, if_neg h10, if_neg h11, if_neg h12, if_neg h13, if_neg h14,
      if_neg h15, if_neg h16, if_neg h17, if_neg h18, if_neg h19, if_neg h20, if_neg h21,
      if_neg h22, if_neg h23, if_neg h24]
  · intro s data hlen
    rcases data with _ | ⟨d0, _ | ⟨d1, rest⟩⟩
    · constructor <;>
        simp [SSD1322.ProcessCommand, CmdSetColumnAddress, CmdSetRowAddress,
          CmdCommandLock, CmdNormalDisplay, CmdSleepMode, CmdWriteRAM, CmdReadRAM]
    · constructor <;>
        simp [SSD1322.ProcessCommand, CmdSetColumnAddress, CmdSetRowAddress,
          CmdCommandLock, CmdNormalDisplay, CmdSleepMode, CmdWriteRAM, CmdReadRAM]
    · simp at hlen
      omega
  · intro s cmd h
    simp only [oneArgOpcodes, List.mem_cons, List.not_mem_nil, or_false] at h
    rcases h with h | h | h | h | h | h | h | h | h | h | h | h <;> subst h <;>
      simp [SSD1322.ProcessCommand, CmdSetContrast, CmdMasterContrast, CmdInvertDisplay,
        CmdSetMultiplexRatio, CmdSetStartLine, CmdDisplayOffset, CmdSetRemap,
        CmdSetClockDivider, CmdSetPhaseLength, CmdSetPrecharge, CmdSetVCOMH,
        CmdGrayscaleTable, CmdCommandLock, CmdNormalDisplay, CmdSleepMode, CmdWriteRAM,
        CmdReadRAM, CmdSetColumnAddress, CmdSetRowAddress, CmdEnhanceDisplay]
  · intro s data hlen
    simp [SSD1322.ProcessCommand, CmdHorizontalScroll, CmdCommandLock, CmdNormalDisplay,
      CmdSleepMode, CmdWriteRAM, CmdReadRAM, CmdSetColumnAddress, CmdSetRowAddress,
      CmdSetContrast, CmdMasterContrast, CmdInvertDisplay, CmdSetMultiplexRatio,
      CmdSetStartLine, CmdDisplayOffset, CmdSetRemap, CmdSetClockDivider,
      CmdSetPhaseLength, CmdEnhanceDisplay, CmdSetPrecharge, CmdSetVCOMH,
      CmdGrayscaleTable, CmdDeactivateScroll, CmdActivateScroll,
      show ¬ data.length ≥ 5 by omega]

set_option maxRecDepth 8000 in
/-- Witness for C8 at a concrete input (scenario C): opcode 0x00 with five
argument bytes is accepted and changes nothing. -/
theorem claim_C8_unknown_and_short_noop_witness :
    (NewSSD1322 16 1).ProcessCommand 0x00 [1, 2, 3, 4, 5] = .ok (NewSSD1322 16 1) :=
  claim_C8_unknown_and_short_noop.1 (NewSSD1322 16 1) 0x00 [1, 2, 3, 4, 5] (by decide)

/-! ### Claim C10 -/

/-- The nibble-write block commutes with changing only the lock flag. -/
theorem writeNibbleAt_locked (s : SSD1322) (b : Bool) (dc r : Int) (p : Nat) :
    SSD1322.writeNibbleAt { s with commandLocked := b } dc r p =
      { SSD1322.writeNibbleAt s dc r p with commandLocked := b } := by
  unfold SSD1322.writeNibbleAt
  dsimp only
  cases hm : s.memory.SetPixelNibble s.vram dc r p <;> rfl

/-- The cursor-advance block commutes with changing only the lock flag. -/
theorem advanceCursor_locked (s : SSD1322) (b : Bool) :
    SSD1322.advanceCursor { s with commandLocked := b } =
      { SSD1322.advanceCursor s with commandLocked := b } := by
  obtain ⟨base, mem, lk, don, dm, cl, mc, inv, cs, ce, rs, re, cc, cr, se, sl, doff,
    mr, cd, pl, pv, vl, rm, gm⟩ := s
  unfold SSD1322.advanceCursor
  dsimp only
  split <;> (try split) <;> rfl

/-- The payload loop body commutes with changing only the lock flag. -/
theorem writeDataByte_locked (s : SSD1322) (b : Bool) (byteVal : Nat) :
    SSD1322.writeDataByte { s with commandLocked := b } byteVal =
      { SSD1322.writeDataByte s byteVal with commandLocked := b } := by
  unfold SSD1322.writeDataByte
  dsimp only [SSD1322.Width, BaseDevice.Width]
  split
  · split
    · rw [writeNibbleAt_locked]
      dsimp only
      split
      · rw [writeNibbleAt_locked, advanceCursor_locked]
      · rw [advanceCursor_locked]
    · rfl
  · rfl

/-- The whole payload loop commutes with changing only the lock flag. -/
theorem foldl_writeDataByte_locked (data : List Nat) (s : SSD1322) (b : Bool) :
    data.foldl SSD1322.writeDataByte { s with commandLocked := b } =
      { data.foldl SSD1322.writeDataByte s with commandLocked := b } := by
  induction data generalizing s with
  | nil => rfl
  | cons d ds ih =>
    simp only [List.foldl_cons, writeDataByte_locked]
    exact ih (SSD1322.writeDataByte s d)
/-- `ProcessCommand` on a non-lock opcode commutes with changing only the lock
flag (case analysis over every opcode with a dispatch case, plus the default). -/
theorem procCmd_locked (s : SSD1322) (cmd : Nat) (data : List Nat) (b : Bool)
    (s' : SSD1322) (hne : cmd ≠ CmdCommandLock) (h : s.ProcessCommand cmd data = .ok s') :
    ({ s with commandLocked := b } : SSD1322).ProcessCommand cmd data =
      .ok { s' with commandLocked := b } := by
  unfold SSD1322.ProcessCommand at h ⊢
  rw [if_neg hne] at h ⊢
  by_cases c0 : cmd = CmdNormalDisplay
  · rw [if_pos c0] at h ⊢
    injection h with h
    subst h
    rfl
  rw [if_neg c0] at h ⊢
  by_cases c1 : cmd = CmdSleepMode
  · rw [if_pos c1] at h ⊢
    injection h with h
    subst h
    rfl
  rw [if_neg c1] at h ⊢
  by_cases c2 : cmd = CmdWriteRAM
  · rw [if_pos c2] at h ⊢
    injection h with h
    subst h
    rfl
  rw [if_neg c2] at h ⊢
  by_cases c3 : cmd = CmdReadRAM
  · rw [if_pos c3] at h ⊢
    injection h with h
    subst h
    rfl
  rw [if_neg c3] at h ⊢
  by_cases c4 : cmd = CmdSetColumnAddress
  · rw [if_pos c4] at h ⊢
    rcases data with _ | ⟨d0, _ | ⟨d1, rest⟩⟩ <;> injection h with h <;> subst h <;> rfl
  rw [if_neg c4] at h ⊢
  by_cases c5 : cmd = CmdSetRowAddress
  · rw [if_pos c5] at h ⊢
    rcases data with _ | ⟨d0, _ | ⟨d1, rest⟩⟩ <;> injection h with h <;> subst h <;> rfl
  rw [if_neg c5] at h ⊢
  by_cases c6 : cmd = CmdSetContrast
  · rw [if_pos c6] at h ⊢
    rcases data with _ | ⟨d0, rest⟩ <;> injection h with h <;> subst h <;> rfl
  rw [if_neg c6] at h ⊢
  by_cases c7 : cmd = CmdMasterContrast
  · rw [if_pos c7] at h ⊢
    rcases data with _ | ⟨d0, rest⟩ <;> injection h with h <;> subst h <;> rfl
  rw [if_neg c7] at h ⊢
  by_cases c8 : cmd = CmdInvertDisplay
  · rw [if_pos c8] at h ⊢
    rcases data with _ | ⟨d0, rest⟩ <;> injection h with h <;> subst h <;> rfl
  rw [if_neg c8] at h ⊢
  by_cases c9 : cmd = CmdSetMultiplexRatio
  · rw [if_pos c9] at h ⊢
    rcases data with _ | ⟨d0, rest⟩ <;> injection h with h <;> subst h <;> rfl
  rw [if_neg c9] at h ⊢
  by_cases c10 : cmd = CmdSetStartLine
  · rw [if_pos c10] at h ⊢
    rcases data with _ | ⟨d0, rest⟩ <;> injection h with h <;> subst h <;> rfl
  rw [if_neg c10] at h ⊢
  by_cases c11 : cmd = CmdDisplayOffset
  · rw [if_pos c11] at h ⊢
    rcases data with _ | ⟨d0, rest⟩ <;> injection h with h <;> subst h <;> rfl
  rw [if_neg c11] at h ⊢
  by_cases c12 : cmd = CmdSetRemap
  · rw [if_pos c12] at h ⊢
    rcases data with _ | ⟨d0, rest⟩ <;> injection h with h <;> subst h <;> rfl
  rw [if_neg c12] at h ⊢
  by_cases c13 : cmd = CmdSetClockDivider
  · rw [if_pos c13] at h ⊢
    rcases data with _ | ⟨d0, rest⟩ <;> injection h with h <;> subst h <;> rfl
  rw [if_neg c13] at h ⊢
  by_cases c14 : cmd = CmdSetPhaseLength
  · rw [if_pos c14] at h ⊢
    rcases data with _ | ⟨d0, rest⟩ <;> injection h with h <;> subst h <;> rfl
  rw [if_neg c14] at h ⊢
  by_cases c15 : cmd = CmdEnhanceDisplay
  · rw [if_pos c15] at h ⊢
    injection h with h
    subst h
    rfl
  rw [if_neg c15] at h ⊢
  by_cases c16 : cmd = CmdSetPrecharge
  · rw [if_pos c16] at h ⊢
    rcases data with _ | ⟨d0, rest⟩ <;> injection h with h <;> subst h <;> rfl
  rw [if_neg c16] at h ⊢
  by_cases c17 : cmd = CmdSetVCOMH
  · rw [if_pos c17] at h ⊢
    rcases data with _ | ⟨d0, rest⟩ <;> injection h with h <;> subst h <;> rfl
  rw [if_neg c17] at h ⊢
  by_cases c18 : cmd = CmdGrayscaleTable
  · rw [if_pos c18] at h ⊢
    rcases data with _ | ⟨d0, rest⟩ <;> injection h with h <;> subst h <;> rfl
  rw [if_neg c18] at h ⊢
  by_cases c19 : cmd = CmdDeactivateScroll
  · rw [if_pos c19] at h ⊢
    injection h with h
    subst h
    rfl
  rw [if_neg c19] at h ⊢
  by_cases c20 : cmd = CmdActivateScroll
  · rw [if_pos c20] at h ⊢
    injection h with h
    subst h
    rfl
  rw [if_neg c20] at h ⊢
  by_cases c21 : cmd = CmdHorizontalScroll
  · rw [if_pos c21] at h ⊢
    by_cases hl : data.length ≥ 5
    · rw [if_pos hl] at h ⊢
      injection h with h
      subst h
      rfl
    · rw [if_neg hl] at h ⊢
      injection h with h
      subst h
      rfl
  rw [if_neg c21] at h ⊢
  by_cases c22 : cmd = CmdDisplayMode
  · rw [if_pos c22] at h ⊢
    injection h with h
    subst h
    rfl
  rw [if_neg c22] at h ⊢
  injection h with h
  subst h
  rfl

/-- Claim C10: the lock-control opcode with argument 0xB1 unlocks and with
0xB0 locks; and the lock flag gates nothing else: for every other opcode (and
for `WriteData`), runs from two states differing only in the lock flag return
the same outcome and make the same updates to every other state component. -/
theorem claim_C10_lock_noninterference :
    (∀ (s : SSD1322) (rest : List Nat),
      s.ProcessCommand CmdCommandLock (0xB1 :: rest) =
        .ok { s with commandLocked := false } ∧
      s.ProcessCommand CmdCommandLock (0xB0 :: rest) =
        .ok { s with commandLocked := true }) ∧
    (∀ (s : SSD1322) (cmd : Nat) (data : List Nat) (b : Bool) (s' : SSD1322),
      cmd ≠ CmdCommandLock → s.ProcessCommand cmd data = .ok s' →
      ({ s with commandLocked := b } : SSD1322).ProcessCommand cmd data =
        .ok { s' with commandLocked := b }) ∧
    (∀ (s : SSD1322) (data : List Nat) (b : Bool) (s' : SSD1322),
      s.WriteData data = .ok s' →
      ({ s with commandLocked := b } : SSD1322).WriteData data =
        .ok { s' with commandLocked := b }) ∧
    (∀ (s : SSD1322) (data : List Nat) (b : Bool) (e : String),
      s.WriteData data = .error e →
      ({ s with commandLocked := b } : SSD1322).WriteData data = .error e) := by
  refine ⟨?_, ?_, ?_, ?_⟩
  · intro s rest
    exact ⟨rfl, rfl⟩
  · intro s cmd data b s' hne h
    exact procCmd_locked s cmd data b s' hne h
  · intro s data b s' h
    unfold SSD1322.WriteData at h ⊢
    dsimp only at h ⊢
    by_cases hdm : s.dataMode = true
    · rw [hdm] at h
      simp only [Bool.not_true, Bool.false_eq_true, if_false] at h
      injection h with h
      subst h
      rw [if_neg (by rw [hdm]; simp)]
      rw [foldl_writeDataByte_locked]
    · have hdm' : s.dataMode = false := by
        cases hb : s.dataMode
        · rfl
        · exact absurd hb hdm
      rw [hdm'] at h
      simp only [Bool.not_false, if_true] at h
      exact absurd h (by simp)
  · intro s data b e h
    unfold SSD1322.WriteData at h ⊢
    dsimp only at h ⊢
    by_cases hdm : s.dataMode = true
    · rw [hdm] at h
      simp only [Bool.not_true, Bool.false_eq_true, if_false] at h
      exact absurd h (by simp)
    · have hdm' : s.dataMode = false := by
        cases hb : s.dataMode
        · rfl
        · exact absurd hb hdm
      rw [hdm'] at h
      simp only [Bool.not_false, if_true] at h
      rw [if_pos (by rw [hdm']; simp)]
      exact h

set_option maxRecDepth 8000 in
/-- Witness for C10 at a concrete input: setting contrast from an
unlocked variant of a fresh device yields the same update with the lock flag
carried along. -/
theorem claim_C10_lock_noninterference_witness :
    ({ NewSSD1322 16 1 with commandLocked := false } : SSD1322).ProcessCommand
        CmdSetContrast [7] =
      .ok { { NewSSD1322 16 1 with contrastLevel := 7 } with commandLocked := false } :=
  claim_C10_lock_noninterference.2.1 (NewSSD1322 16 1) CmdSetContrast [7] false
    { NewSSD1322 16 1 with contrastLevel := 7 } (by decide) (by rfl)

/-! ### Field lemmas for the payload write path -/

/-- The nibble-write block never changes `columnStart`. -/
theorem wnb_columnStart (s : SSD1322) (dc r : Int) (p : Nat) :
    (s.writeNibbleAt dc r p).columnStart = s.columnStart := by
  unfold SSD1322.writeNibbleAt
  cases hm : s.memory.SetPixelNibble s.vram dc r p <;> rfl

/-- The nibble-write block never changes `columnEnd`. -/
theorem wnb_columnEnd (s : SSD1322) (dc r : Int) (p : Nat) :
    (s.writeNibbleAt dc r p).columnEnd = s.columnEnd := by
  unfold SSD1322.writeNibbleAt
  cases hm : s.memory.SetPixelNibble s.vram dc r p <;> rfl

/-- The nibble-write block never changes `rowStart`. -/
theorem wnb_rowStart (s : SSD1322) (dc r : Int) (p : Nat) :
    (s.writeNibbleAt dc r p).rowStart = s.rowStart := by
  unfold SSD1322.writeNibbleAt
  cases hm : s.memory.SetPixelNibble s.vram dc r p <;> rfl

/-- The nibble-write block never changes `rowEnd`. -/
theorem wnb_rowEnd (s : SSD1322) (dc r : Int) (p : Nat) :
    (s.writeNibbleAt dc r p).rowEnd = s.rowEnd := by
  unfold SSD1322.writeNibbleAt
  cases hm : s.memory.SetPixelNibble s.vram dc r p <;> rfl

/-- The nibble-write block never changes `currentColumn`. -/
theorem wnb_currentColumn (s : SSD1322) (dc r : Int) (p : Nat) :
    (s.writeNibbleAt dc r p).currentColumn = s.currentColumn := by
  unfold SSD1322.writeNibbleAt
  cases hm : s.memory.SetPixelNibble s.vram dc r p <;> rfl

/-- The nibble-write block never changes `currentRow`. -/
theorem wnb_currentRow (s : SSD1322) (dc r : Int) (p : Nat) :
    (s.writeNibbleAt dc r p).currentRow = s.currentRow := by
  unfold SSD1322.writeNibbleAt
  cases hm : s.memory.SetPixelNibble s.vram dc r p <;> rfl

/-- The nibble-write block never changes the memory helper. -/
theorem wnb_memory (s : SSD1322) (dc r : Int) (p : Nat) :
    (s.writeNibbleAt dc r p).memory = s.memory := by
  unfold SSD1322.writeNibbleAt
  cases hm : s.memory.SetPixelNibble s.vram dc r p <;> rfl

/-- The nibble-write block never changes the width. -/
theorem wnb_Width (s : SSD1322) (dc r : Int) (p : Nat) :
    (s.writeNibbleAt dc r p).Width = s.Width := by
  unfold SSD1322.writeNibbleAt
  cases hm : s.memory.SetPixelNibble s.vram dc r p with
  | ok nv => simp [SSD1322.Width, BaseDevice.Width, MarkDirty_config]
  | error e => rfl

/-- The cursor-advance block never changes VRAM. -/
theorem advanceCursor_vram (t : SSD1322) : t.advanceCursor.vram = t.vram := by
  unfold SSD1322.advanceCursor
  dsimp only
  split <;> (try split) <;> rfl

/-- The cursor-advance block never changes the memory helper. -/
theorem advanceCursor_memory (t : SSD1322) : t.advanceCursor.memory = t.memory := by
  unfold SSD1322.advanceCursor
  dsimp only
  split <;> (try split) <;> rfl

/-- The cursor-advance block's effect on the column cursor. -/
theorem advanceCursor_currentColumn (t : SSD1322) :
    t.advanceCursor.currentColumn =
      (if t.currentColumn + 1 > t.columnEnd then t.columnStart else t.currentColumn + 1) := by
  unfold SSD1322.advanceCursor
  dsimp only
  split <;> (try split) <;> simp_all

/-- The cursor-advance block's effect on the row cursor. -/
theorem advanceCursor_currentRow (t : SSD1322) :
    t.advanceCursor.currentRow =
      (if t.currentColumn + 1 > t.columnEnd then
        (if t.currentRow + 1 > t.rowEnd then t.rowStart else t.currentRow + 1)
      else t.currentRow) := by
  unfold SSD1322.advanceCursor
  dsimp only
  split <;> (try split) <;> simp_all

/-- A successful nibble write updates VRAM by one masked-byte `set`. -/
theorem wnb_vram_ok (s : SSD1322) (dc r : Int) (p : Nat)
    (hx0 : 0 ≤ dc) (hx : dc < (s.memory.width : Int))
    (hy0 : 0 ≤ r) (hy : r < (s.memory.height : Int))
    (hoff : s.memory.nibOff dc r < s.vram.length) :
    (s.writeNibbleAt dc r p).vram =
      s.vram.set (s.memory.nibOff dc r)
        (s.memory.newNibByte dc (s.vram.getD (s.memory.nibOff dc r) 0) p) := by
  unfold SSD1322.writeNibbleAt
  rw [setPixelNibble_ok s.memory s.vram dc r p hx0 hx hy0 hy hoff]
  dsimp only
  rw [MarkDirty_vram]

/-- `ProcessCommand` succeeds (returns a nil error) on every opcode and every
argument list (case analysis over the whole dispatch chain). -/
theorem procCmd_always_ok (s : SSD1322) (cmd : Nat) (data : List Nat) :
    ∃ s', s.ProcessCommand cmd data = .ok s' := by
  unfold SSD1322.ProcessCommand
  by_cases c0 : cmd = CmdCommandLock
  · rw [if_pos c0]
    rcases data with _ | ⟨d0, rest⟩
    · exact ⟨_, rfl⟩
    · dsimp only
      split
      · exact ⟨_, rfl⟩
      · split
        · exact ⟨_, rfl⟩
        · exact ⟨_, rfl⟩
  rw [if_neg c0]
  by_cases c1 : cmd = CmdNormalDisplay
  · rw [if_pos c1]
    exact ⟨_, rfl⟩
  rw [if_neg c1]
  by_cases c2 : cmd = CmdSleepMode
  · rw [if_pos c2]
    exact ⟨_, rfl⟩
  rw [if_neg c2]
  by_cases c3 : cmd = CmdWriteRAM
  · rw [if_pos c3]
    exact ⟨_, rfl⟩
  rw [if_neg c3]
  by_cases c4 : cmd = CmdReadRAM
  · rw [if_pos c4]
    exact ⟨_, rfl⟩
  rw [if_neg c4]
  by_cases c5 : cmd = CmdSetColumnAddress
  · rw [if_pos c5]
    rcases data with _ | ⟨d0, _ | ⟨d1, rest⟩⟩ <;> exact ⟨_, rfl⟩
  rw [if_neg c5]
  by_cases c6 : cmd = CmdSetRowAddress
  · rw [if_pos c6]
    rcases data with _ | ⟨d0, _ | ⟨d1, rest⟩⟩ <;> exact ⟨_, rfl⟩
  rw [if_neg c6]
  by_cases c7 : cmd = CmdSetContrast
  · rw [if_pos c7]
    rcases data with _ | ⟨d0, rest⟩ <;> exact ⟨_, rfl⟩
  rw [if_neg c7]
  by_cases c8 : cmd = CmdMasterContrast
  · rw [if_pos c8]
    rcases data with _ | ⟨d0, rest⟩ <;> exact ⟨_, rfl⟩
  rw [if_neg c8]
  by_cases c9 : cmd = CmdInvertDisplay
  · rw [if_pos c9]
    rcases data with _ | ⟨d0, rest⟩ <;> exact ⟨_, rfl⟩
  rw [if_neg c9]
  by_cases c10 : cmd = CmdSetMultiplexRatio
  · rw [if_pos c10]
    rcases data with _ | ⟨d0, rest⟩ <;> exact ⟨_, rfl⟩
  rw [if_neg c10]
  by_cases c11 : cmd = CmdSetStartLine
  · rw [if_pos c11]
    rcases data with _ | ⟨d0, rest⟩ <;> exact ⟨_, rfl⟩
  rw [if_neg c11]
  by_cases c12 : cmd = CmdDisplayOffset
  · rw [if_pos c12]
    rcases data with _ | ⟨d0, rest⟩ <;> exact ⟨_, rfl⟩
  rw [if_neg c12]
  by_cases c13 : cmd = CmdSetRemap
  · rw [if_pos c13]
    rcases data with _ | ⟨d0, rest⟩ <;> exact ⟨_, rfl⟩
  rw [if_neg c13]
  by_cases c14 : cmd = CmdSetClockDivider
  · rw [if_pos c14]
    rcases data with _ | ⟨d0, rest⟩ <;> exact ⟨_, rfl⟩
  rw [if_neg c14]
  by_cases c15 : cmd = CmdSetPhaseLength
  · rw [if_pos c15]
    rcases data with _ | ⟨d0, rest⟩ <;> exact ⟨_, rfl⟩
  rw [if_neg c15]
  by_cases c16 : cmd = CmdEnhanceDisplay
  · rw [if_pos c16]
    exact ⟨_, rfl⟩
  rw [if_neg c16]
  by_cases c17 : cmd = CmdSetPrecharge
  · rw [if_pos c17]
    rcases data with _ | ⟨d0, rest⟩ <;> exact ⟨_, rfl⟩
  rw [if_neg c17]
  by_cases c18 : cmd = CmdSetVCOMH
  · rw [if_pos c18]
    rcases data with _ | ⟨d0, rest⟩ <;> exact ⟨_, rfl⟩
  rw [if_neg c18]
  by_cases c19 : cmd = CmdGrayscaleTable
  · rw [if_pos c19]
    rcases data with _ | ⟨d0, rest⟩ <;> exact ⟨_, rfl⟩
  rw [if_neg c19]
  by_cases c20 : cmd = CmdDeactivateScroll
  · rw [if_pos c20]
    exact ⟨_, rfl⟩
  rw [if_neg c20]
  by_cases c21 : cmd = CmdActivateScroll
  · rw [if_pos c21]
    exact ⟨_, rfl⟩
  rw [if_neg c21]
  by_cases c22 : cmd = CmdHorizontalScroll
  · rw [if_pos c22]
    by_cases hl : data.length ≥ 5
    · rw [if_pos hl]
      exact ⟨_, rfl⟩
    · rw [if_neg hl]
      exact ⟨_, rfl⟩
  rw [if_neg c22]
  by_cases c23 : cmd = CmdDisplayMode
  · rw [if_pos c23]
    exact ⟨_, rfl⟩
  rw [if_neg c23]
  exact ⟨_, rfl⟩

/-! ### Claim C3 -/

/-- Counterexample for C3 as stated: `WriteData` does have an error path — a
fresh controller is in command phase, and `WriteData` then returns the
"not in data write mode" error instead of succeeding. -/
theorem claim_C3_counterexample :
    (NewSSD1322 16 1).WriteData [0] = .error "not in data write mode" := rfl

/-- Claim C3 (amended): `ProcessCommand` never fails for any opcode/argument
pair; `WriteData` never fails while in data mode but returns an error when
called in command phase; and out-of-range scalar arguments are masked to their
bit-width (master current to 4 bits, start line to 7 bits) rather than
rejected. -/
theorem claim_C3_no_failure_amended :
    (∀ (s : SSD1322) (cmd : Nat) (data : List Nat),
      ∃ s', s.ProcessCommand cmd data = .ok s') ∧
    (∀ (s : SSD1322) (data : List Nat), s.dataMode = true →
      s.WriteData data = .ok (data.foldl SSD1322.writeDataByte s)) ∧
    (∀ (s : SSD1322) (data : List Nat), s.dataMode = false →
      s.WriteData data = .error "not in data write mode") ∧
    (∀ (s : SSD1322) (d0 : Nat) (rest : List Nat) (s' : SSD1322),
      (s.ProcessCommand CmdMasterContrast (d0 :: rest) = .ok s' →
        s'.masterCurrentLevel < 16) ∧
      (s.ProcessCommand CmdSetStartLine (d0 :: rest) = .ok s' →
        s'.startLine < 128)) := by
  refine ⟨procCmd_always_ok, ?_, ?_, ?_⟩
  · intro s data hdm
    unfold SSD1322.WriteData
    rw [if_neg (by rw [hdm]; simp)]
  · intro s data hdm
    unfold SSD1322.WriteData
    rw [if_pos (by rw [hdm]; simp)]
  · intro s d0 rest s'
    constructor
    · intro h
      have he : s.ProcessCommand CmdMasterContrast (d0 :: rest) =
          .ok { s with masterCurrentLevel := d0 &&& 0x0F } := rfl
      rw [he] at h
      injection h with h
      subst h
      exact land_15_lt_16 d0
    · intro h
      have he : s.ProcessCommand CmdSetStartLine (d0 :: rest) =
          .ok { s with startLine := ((d0 &&& 0x7F : Nat) : Int) } := rfl
      rw [he] at h
      injection h with h
      subst h
      show ((d0 &&& 0x7F : Nat) : Int) < 128
      have hb : d0 &&& 0x7F < 128 := Nat.lt_of_le_of_lt Nat.and_le_right (by norm_num)
      exact_mod_cast hb

set_option maxRecDepth 8000 in
/-- Witness for C3 at a concrete input: master current argument 0xFF is masked
to 4 bits. -/
theorem claim_C3_no_failure_amended_witness :
    ({ NewSSD1322 16 1 with masterCurrentLevel := 0xFF &&& 0x0F } : SSD1322).masterCurrentLevel
      < 16 :=
  (claim_C3_no_failure_amended.2.2.2 (NewSSD1322 16 1) 0xFF []
    { NewSSD1322 16 1 with masterCurrentLevel := 0xFF &&& 0x0F }).1 (by rfl)

/-! ### Claim C1 -/

/-- Marking the full viewport dirty leaves a box that covers the viewport,
whatever the previous dirty state was. -/
theorem markDirty_full (bd : BaseDevice) :
    (bd.MarkDirty 0 0 ((bd.config.width : Int) - 1) ((bd.config.height : Int) - 1)).hasDirty
        = true ∧
      (bd.MarkDirty 0 0 ((bd.config.width : Int) - 1) ((bd.config.height : Int) - 1)).dirtyX0
        ≤ 0 ∧
      (bd.MarkDirty 0 0 ((bd.config.width : Int) - 1) ((bd.config.height : Int) - 1)).dirtyY0
        ≤ 0 ∧
      (bd.config.width : Int) - 1 ≤
        (bd.MarkDirty 0 0 ((bd.config.width : Int) - 1) ((bd.config.height : Int) - 1)).dirtyX1 ∧
      (bd.config.height : Int) - 1 ≤
        (bd.MarkDirty 0 0 ((bd.config.width : Int) - 1) ((bd.config.height : Int) - 1)).dirtyY1 := by
  unfold BaseDevice.MarkDirty
  cases hd : bd.hasDirty
  · rw [if_pos (by simp)]
    refine ⟨rfl, ?_, ?_, ?_, ?_⟩ <;> dsimp only <;> split_ifs <;> omega
  · rw [if_neg (by simp)]
    refine ⟨rfl, ?_, ?_, ?_, ?_⟩ <;> dsimp only <;> split_ifs <;> omega

/-- Counterexample for C1 as stated: `Reset` does not restore the multiplex
ratio (nor the clock divider, phase length, precharge, VCOMH, remap byte or
grayscale mode).  After setting the mux ratio to 0x00 on a fresh device and
resetting, the mux ratio stays 0x00 instead of the power-on default 0x3F. -/
theorem claim_C1_counterexample :
    (okOr ((okOr ((NewSSD1322 16 1).ProcessCommand CmdSetMultiplexRatio [0x00])
        (NewSSD1322 16 1)).Reset) (NewSSD1322 16 1)).multiplexRatio = 0x00 ∧
      (0x00 : Nat) ≠ 0x3F := by
  exact ⟨rfl, by decide⟩

/-- Claim C1 (amended): from every controller state, `Reset` succeeds and
restores the lock, display, phase, contrast, master-current, invert, window,
cursor, scroll, start-line and display-offset defaults, zeroes every VRAM byte
(keeping its size), and leaves the dirty box covering the whole viewport — but
it leaves the multiplex ratio, clock divider, phase length, precharge voltage,
VCOMH level, remap byte and grayscale mode at their prior values instead of
their power-on defaults. -/
theorem claim_C1_reset_amended (s : SSD1322) :
    ∃ r : SSD1322, s.Reset = .ok r ∧
      r.commandLocked = true ∧ r.displayOn = false ∧ r.dataMode = false ∧
      r.contrastLevel = 0x7F ∧ r.masterCurrentLevel = 0x0F ∧ r.invertDisplay = false ∧
      r.columnStart = 0 ∧ r.columnEnd = (s.Width : Int) - 1 ∧ r.rowStart = 0 ∧
      r.rowEnd = (s.Height : Int) - 1 ∧ r.currentColumn = 0 ∧ r.currentRow = 0 ∧
      r.scrollEnabled = false ∧ r.startLine = 0 ∧ r.displayOffset = 0 ∧
      (∀ b ∈ r.vram, b = 0) ∧ r.vram.length = s.vram.length ∧
      r.hasDirty = true ∧ r.dirtyX0 ≤ 0 ∧ r.dirtyY0 ≤ 0 ∧
      (s.Width : Int) - 1 ≤ r.dirtyX1 ∧ (s.Height : Int) - 1 ≤ r.dirtyY1 ∧
      r.multiplexRatio = s.multiplexRatio ∧ r.clockDivider = s.clockDivider ∧
      r.phaseLength = s.phaseLength ∧ r.prechargeVoltage = s.prechargeVoltage ∧
      r.vcomhLevel = s.vcomhLevel ∧ r.remapSettings = s.remapSettings ∧
      r.grayscaleTableMode = s.grayscaleTableMode := by
  refine ⟨_, rfl, rfl, rfl, rfl, rfl, rfl, rfl, rfl, rfl, rfl, rfl, rfl, rfl, rfl, rfl, rfl,
    ?_, ?_, ?_, ?_, ?_, ?_, ?_, rfl, rfl, rfl, rfl, rfl, rfl, rfl⟩
  · intro b hb
    rw [MarkDirty_vram] at hb
    exact List.eq_of_mem_replicate hb
  · rw [MarkDirty_vram]
    exact List.length_replicate _ _
  · exact (markDirty_full _).1
  · exact (markDirty_full _).2.1
  · exact (markDirty_full _).2.2.1
  · exact (markDirty_full _).2.2.2.1
  · exact (markDirty_full _).2.2.2.2

set_option maxRecDepth 8000 in
/-- Witness for C1 at a concrete input: resetting a fresh 16x1 device locks it
again. -/
theorem claim_C1_reset_amended_witness :
    (okOr ((NewSSD1322 16 1).Reset) (NewSSD1322 16 1)).commandLocked = true := by
  obtain ⟨r, hr, h1, _⟩ := claim_C1_reset_amended (NewSSD1322 16 1)
  have hok : okOr ((NewSSD1322 16 1).Reset) (NewSSD1322 16 1) = r := by
    rw [hr]
    rfl
  rw [hok]
  exact h1

/-! ### Payload-byte semantics (claims C2 and C4) -/

/-- Adjacent display columns have alternating nibble indices; they share a
storage byte exactly when the left one has nibble index 0. -/
theorem nib_parity (mh : MemoryHelper) (dc row : Int) (hdc : 0 ≤ dc) :
    (mh.nibIdx dc = 0 →
      mh.nibIdx (dc + 1) = 1 ∧ mh.nibOff (dc + 1) row = mh.nibOff dc row) ∧
    (mh.nibIdx dc ≠ 0 →
      mh.nibIdx (dc + 1) = 0 ∧ mh.nibOff (dc + 1) row = mh.nibOff dc row + 1) := by
  unfold MemoryHelper.nibIdx MemoryHelper.nibOff
  have ht : (dc + 1).toNat = dc.toNat + 1 := by omega
  rw [ht]
  constructor <;> intro h <;> constructor <;> omega

/-- Full characterisation of one payload byte processed at an in-window,
in-viewport cursor position: the low nibble lands at display column
`curCol - colStart`, the high nibble at the next column, and the cursor
advances by one column with the source's wraparound rule. -/
theorem writeDataByte_spec (s : SSD1322) (b : Nat)
    (hg : s.columnStart ≤ s.currentColumn ∧ s.currentColumn ≤ s.columnEnd ∧
          s.rowStart ≤ s.currentRow ∧ s.currentRow ≤ s.rowEnd)
    (hmw : (s.memory.width : Int) = (s.Width : Int))
    (hw2 : s.currentColumn - s.columnStart + 1 < (s.Width : Int))
    (hy0 : 0 ≤ s.currentRow)
    (hy : s.currentRow < (s.memory.height : Int))
    (hoff1 : s.memory.nibOff (s.currentColumn - s.columnStart) s.currentRow < s.vram.length)
    (hoff2 : s.memory.nibOff (s.currentColumn - s.columnStart + 1) s.currentRow
        < s.vram.length) :
    (s.writeDataByte b).GetPixel (s.currentColumn - s.columnStart) s.currentRow =
        .ok (b &&& 0x0F) ∧
    (s.writeDataByte b).GetPixel (s.currentColumn - s.columnStart + 1) s.currentRow =
        .ok ((b >>> 4) &&& 0x0F) ∧
    (s.writeDataByte b).currentColumn =
      (if s.currentColumn + 1 > s.columnEnd then s.columnStart else s.currentColumn + 1) ∧
    (s.writeDataByte b).currentRow =
      (if s.currentColumn + 1 > s.columnEnd then
        (if s.currentRow + 1 > s.rowEnd then s.rowStart else s.currentRow + 1)
      else s.currentRow) := by
  obtain ⟨hg1, hg2, hg3, hg4⟩ := hg
  have hdc0 : (0 : Int) ≤ s.currentColumn - s.columnStart := by omega
  have hwdb : s.writeDataByte b =
      ((s.writeNibbleAt (s.currentColumn - s.columnStart) s.currentRow
          (b &&& 0x0F)).writeNibbleAt (s.currentColumn - s.columnStart + 1) s.currentRow
          ((b >>> 4) &&& 0x0F)).advanceCursor := by
    unfold SSD1322.writeDataByte
    dsimp only
    rw [if_pos ⟨hg1, hg2, hg3, hg4⟩, if_pos (by omega), wnb_Width, if_pos (by omega)]
  have hm1 : (s.writeNibbleAt (s.currentColumn - s.columnStart) s.currentRow
      (b &&& 0x0F)).memory = s.memory := wnb_memory _ _ _ _
  have hv1 : (s.writeNibbleAt (s.currentColumn - s.columnStart) s.currentRow
      (b &&& 0x0F)).vram =
      s.vram.set (s.memory.nibOff (s.currentColumn - s.columnStart) s.currentRow)
        (s.memory.newNibByte (s.currentColumn - s.columnStart)
          (s.vram.getD (s.memory.nibOff (s.currentColumn - s.columnStart) s.currentRow) 0)
          (b &&& 0x0F)) :=
    wnb_vram_ok s _ _ _ hdc0 (by omega) hy0 hy hoff1
  have hlen1 : (s.writeNibbleAt (s.currentColumn - s.columnStart) s.currentRow
      (b &&& 0x0F)).vram.length = s.vram.length := by rw [hv1, List.length_set]
  have hv2 : ((s.writeNibbleAt (s.currentColumn - s.columnStart) s.currentRow
      (b &&& 0x0F)).writeNibbleAt (s.currentColumn - s.columnStart + 1) s.currentRow
      ((b >>> 4) &&& 0x0F)).vram =
      (s.writeNibbleAt (s.currentColumn - s.columnStart) s.currentRow (b &&& 0x0F)).vram.set
        (s.memory.nibOff (s.currentColumn - s.columnStart + 1) s.currentRow)
        (s.memory.newNibByte (s.currentColumn - s.columnStart + 1)
          ((s.writeNibbleAt (s.currentColumn - s.columnStart) s.currentRow
            (b &&& 0x0F)).vram.getD
            (s.memory.nibOff (s.currentColumn - s.columnStart + 1) s.currentRow) 0)
          ((b >>> 4) &&& 0x0F)) := by
    have h := wnb_vram_ok (s.writeNibbleAt (s.currentColumn - s.columnStart) s.currentRow
        (b &&& 0x0F)) (s.currentColumn - s.columnStart + 1) s.currentRow ((b >>> 4) &&& 0x0F)
      (by omega) (by rw [hm1]; omega) hy0 (by rw [hm1]; exact hy)
      (by rw [hm1, hlen1]; exact hoff2)
    rw [hm1] at h
    exact h
  have hm2 : ((s.writeNibbleAt (s.currentColumn - s.columnStart) s.currentRow
      (b &&& 0x0F)).writeNibbleAt (s.currentColumn - s.columnStart + 1) s.currentRow
      ((b >>> 4) &&& 0x0F)).memory = s.memory := by rw [wnb_memory, hm1]
  have hlen2 : ((s.writeNibbleAt (s.currentColumn - s.columnStart) s.currentRow
      (b &&& 0x0F)).writeNibbleAt (s.currentColumn - s.columnStart + 1) s.currentRow
      ((b >>> 4) &&& 0x0F)).vram.length = s.vram.length := by
    rw [hv2, List.length_set, hlen1]
  have hgp : ∀ x : Int, 0 ≤ x → x < (s.memory.width : Int) →
      s.memory.nibOff x s.currentRow < s.vram.length →
      (s.writeDataByte b).GetPixel x s.currentRow =
        .ok (if s.memory.nibIdx x = 0 then
          ((s.writeNibbleAt (s.currentColumn - s.columnStart) s.currentRow
            (b &&& 0x0F)).writeNibbleAt (s.currentColumn - s.columnStart + 1) s.currentRow
            ((b >>> 4) &&& 0x0F)).vram.getD (s.memory.nibOff x s.currentRow) 0 &&& 0x0F
        else
          (((s.writeNibbleAt (s.currentColumn - s.columnStart) s.currentRow
            (b &&& 0x0F)).writeNibbleAt (s.currentColumn - s.columnStart + 1) s.currentRow
            ((b >>> 4) &&& 0x0F)).vram.getD (s.memory.nibOff x s.currentRow) 0 >>> 4)
            &&& 0x0F) := by
    intro x hx0 hxw hxoff
    rw [hwdb]
    unfold SSD1322.GetPixel
    rw [advanceCursor_memory, advanceCursor_vram, hm2]
    rw [getPixelNibble_ok s.memory _ x s.currentRow hx0 hxw hy0 hy
      (by rw [hlen2]; exact hxoff)]
  have hpar := nib_parity s.memory (s.currentColumn - s.columnStart) s.currentRow hdc0
  refine ⟨?_, ?_, ?_, ?_⟩
  · rw [hgp (s.currentColumn - s.columnStart) hdc0 (by omega) hoff1]
    by_cases hn : s.memory.nibIdx (s.currentColumn - s.columnStart) = 0
    · obtain ⟨hn2, hoffeq⟩ := hpar.1 hn
      rw [if_pos hn, hv2, hoffeq,
        getD_set_self _ _ _ (by rw [hlen1]; exact hoff1),
        hv1, getD_set_self _ _ _ hoff1]
      unfold MemoryHelper.newNibByte
      rw [if_neg (show ¬ s.memory.nibIdx (s.currentColumn - s.columnStart + 1) = 0 by omega),
        if_pos hn]
      rw [highNib_preserves_low, land_15_idem, lowNib_roundtrip _ _ (land_15_lt_16 b)]
    · obtain ⟨hn2, hoffeq⟩ := hpar.2 hn
      rw [if_neg hn, hv2, hoffeq,
        getD_set_ne _ _ _ _ (by omega),
        hv1, getD_set_self _ _ _ hoff1]
      unfold MemoryHelper.newNibByte
      rw [if_neg hn]
      rw [land_15_idem, highNib_roundtrip _ _ (land_15_lt_16 b)]
  · rw [hgp (s.currentColumn - s.columnStart + 1) (by omega) (by omega) hoff2]
    by_cases hn : s.memory.nibIdx (s.currentColumn - s.columnStart) = 0
    · obtain ⟨hn2, hoffeq⟩ := hpar.1 hn
      rw [if_neg (show ¬ s.memory.nibIdx (s.currentColumn - s.columnStart + 1) = 0 by omega),
        hv2, getD_set_self _ _ _ (by rw [hlen1]; exact hoff2)]
      unfold MemoryHelper.newNibByte
      rw [if_neg (show ¬ s.memory.nibIdx (s.currentColumn - s.columnStart + 1) = 0 by omega)]
      rw [land_15_idem, highNib_roundtrip _ _ (land_15_lt_16 (b >>> 4))]
    · obtain ⟨hn2, hoffeq⟩ := hpar.2 hn
      rw [if_pos hn2, hv2, getD_set_self _ _ _ (by rw [hlen1]; exact hoff2)]
      unfold MemoryHelper.newNibByte
      rw [if_pos hn2]
      rw [land_15_idem, lowNib_roundtrip _ _ (land_15_lt_16 (b >>> 4))]
  · rw [hwdb, advanceCursor_currentColumn]
    rw [wnb_currentColumn, wnb_columnEnd, wnb_columnStart,
      wnb_currentColumn, wnb_columnEnd, wnb_columnStart]
  · rw [hwdb, advanceCursor_currentRow]
    rw [wnb_currentColumn, wnb_columnEnd, wnb_currentRow, wnb_rowEnd, wnb_rowStart,
      wnb_currentColumn, wnb_columnEnd, wnb_currentRow, wnb_rowEnd, wnb_rowStart]

/-! ### Claim C2 -/

set_option maxRecDepth 8000 in
/-- Counterexample for C2 as stated: after one payload byte the column cursor
advances by 1, not by the number of decoded sub-pixels (2): from cursor 0 the
claim predicts column 2, the code yields column 1. -/
theorem claim_C2_counterexample :
    (okOr ((okOr ((NewSSD1322 16 1).ProcessCommand CmdWriteRAM [])
        (NewSSD1322 16 1)).WriteData [0x00]) (NewSSD1322 16 1)).currentColumn = 1 ∧
      (1 : Int) ≠ 2 := by
  constructor
  · decide
  · decide

/-- Claim C2 (amended): in DataPhase each payload byte decodes into two 4-bit
values; with the cursor inside the window and both mapped columns inside the
viewport, the low nibble is written at viewport-local column
`curCol - colStart` and the high nibble at the next column, readable back via
`GetPixel`; the cursor then advances by 1 (not by 2), wrapping to `colStart`
with a row increment past `colEnd`, the row wrapping to `rowStart` past
`rowEnd`.  A byte processed with the cursor outside the window is consumed
with no state change at all. -/
theorem claim_C2_payload_semantics :
    (∀ (s : SSD1322) (b : Nat), s.dataMode = true →
      s.WriteData [b] = .ok (s.writeDataByte b)) ∧
    (∀ (s : SSD1322) (b : Nat),
      (s.columnStart ≤ s.currentColumn ∧ s.currentColumn ≤ s.columnEnd ∧
       s.rowStart ≤ s.currentRow ∧ s.currentRow ≤ s.rowEnd) →
      (s.memory.width : Int) = (s.Width : Int) →
      s.currentColumn - s.columnStart + 1 < (s.Width : Int) →
      0 ≤ s.currentRow →
      s.currentRow < (s.memory.height : Int) →
      s.memory.nibOff (s.currentColumn - s.columnStart) s.currentRow < s.vram.length →
      s.memory.nibOff (s.currentColumn - s.columnStart + 1) s.currentRow < s.vram.length →
      (s.writeDataByte b).GetPixel (s.currentColumn - s.columnStart) s.currentRow =
          .ok (b &&& 0x0F) ∧
        (s.writeDataByte b).GetPixel (s.currentColumn - s.columnStart + 1) s.currentRow =
          .ok ((b >>> 4) &&& 0x0F) ∧
        (s.writeDataByte b).currentColumn =
          (if s.currentColumn + 1 > s.columnEnd then s.columnStart
           else s.currentColumn + 1) ∧
        (s.writeDataByte b).currentRow =
          (if s.currentColumn + 1 > s.columnEnd then
            (if s.currentRow + 1 > s.rowEnd then s.rowStart else s.currentRow + 1)
          else s.currentRow)) ∧
    (∀ (s : SSD1322) (b : Nat),
      ¬(s.columnStart ≤ s.currentColumn ∧ s.currentColumn ≤ s.columnEnd ∧
        s.rowStart ≤ s.currentRow ∧ s.currentRow ≤ s.rowEnd) →
      s.writeDataByte b = s) := by
  refine ⟨?_, ?_, ?_⟩
  · intro s b hdm
    unfold SSD1322.WriteData
    rw [if_neg (by rw [hdm]; simp)]
    rfl
  · intro s b hg hmw hw2 hy0 hy hoff1 hoff2
    exact writeDataByte_spec s b hg hmw hw2 hy0 hy hoff1 hoff2
  · intro s b h
    unfold SSD1322.writeDataByte
    dsimp only
    rw [if_neg h]

set_option maxRecDepth 8000 in
/-- Witness for C2 at a concrete input: on a fresh 16x1 device switched to
data mode, byte 0xF5 puts 0x5 at pixel (0,0). -/
theorem claim_C2_payload_semantics_witness :
    ((okOr ((NewSSD1322 16 1).ProcessCommand CmdWriteRAM [])
        (NewSSD1322 16 1)).writeDataByte 0xF5).GetPixel 0 0 = .ok 0x5 :=
  (claim_C2_payload_semantics.2.1
    (okOr ((NewSSD1322 16 1).ProcessCommand CmdWriteRAM []) (NewSSD1322 16 1)) 0xF5
    (by decide) (by decide) (by decide) (by decide) (by decide) (by decide) (by decide)).1

/-! ### Claim C4 -/

/-- The controller state reached in scenario A just before the payload byte:
unlocked, window [0,255]x[0,63], cursor (0,0), data phase. -/
def c4Mid : SSD1322 :=
  { NewSSD1322 256 64 with
      commandLocked := false
      columnStart := 0
      columnEnd := 255
      currentColumn := 0
      rowStart := 0
      rowEnd := 63
      currentRow := 0
      dataMode := true }

set_option maxRecDepth 8000 in
/-- Claim C4 (scenario A): on a 256x64 packed-nibble controller, after
unlocking (0xFD 0xB1), setting the column window to [0,255] and row window to
[0,63], entering data phase (0x5C) and writing the single byte 0xF5 at cursor
(0,0), `GetPixel 0 0` returns 0x5 (low nibble) and `GetPixel 1 0` returns 0xF
(high nibble). -/
theorem claim_C4_scenario_A :
    (okOr ((okOr ((okOr ((okOr ((okOr ((NewSSD1322 256 64).ProcessCommand CmdCommandLock
        [0xB1]) (NewSSD1322 256 64)).ProcessCommand CmdSetColumnAddress [0x00, 0xFF])
        (NewSSD1322 256 64)).ProcessCommand CmdSetRowAddress [0x00, 0x3F])
        (NewSSD1322 256 64)).ProcessCommand CmdWriteRAM [])
        (NewSSD1322 256 64)).WriteData [0xF5])
        (NewSSD1322 256 64)).GetPixel 0 0 = .ok 0x5 ∧
    (okOr ((okOr ((okOr ((okOr ((okOr ((NewSSD1322 256 64).ProcessCommand CmdCommandLock
        [0xB1]) (NewSSD1322 256 64)).ProcessCommand CmdSetColumnAddress [0x00, 0xFF])
        (NewSSD1322 256 64)).ProcessCommand CmdSetRowAddress [0x00, 0x3F])
        (NewSSD1322 256 64)).ProcessCommand CmdWriteRAM [])
        (NewSSD1322 256 64)).WriteData [0xF5])
        (NewSSD1322 256 64)).GetPixel 1 0 = .ok 0xF := by
  have hlen : c4Mid.vram = List.replicate 15360 0 := rfl
  have h := writeDataByte_spec c4Mid 0xF5
    (by refine ⟨?_, ?_, ?_, ?_⟩ <;> decide) (by decide) (by decide) (by decide) (by decide)
    (by rw [hlen, List.length_replicate]; decide)
    (by rw [hlen, List.length_replicate]; decide)
  have e4 : okOr ((okOr ((okOr ((okOr ((NewSSD1322 256 64).ProcessCommand CmdCommandLock
      [0xB1]) (NewSSD1322 256 64)).ProcessCommand CmdSetColumnAddress [0x00, 0xFF])
      (NewSSD1322 256 64)).ProcessCommand CmdSetRowAddress [0x00, 0x3F])
      (NewSSD1322 256 64)).ProcessCommand CmdWriteRAM [])
      (NewSSD1322 256 64) = c4Mid := rfl
  rw [e4]
  have e5 : c4Mid.WriteData [0xF5] = .ok (c4Mid.writeDataByte 0xF5) := by
    unfold SSD1322.WriteData
    rw [if_neg (by decide)]
    rw [List.foldl_cons, List.foldl_nil]
  rw [e5]
  rw [okOr_ok]
  have hc : c4Mid.currentColumn - c4Mid.columnStart = (0 : Int) := by decide
  have hr : c4Mid.currentRow = (0 : Int) := rfl
  rw [hc, hr] at h
  have hv1 : (0xF5 &&& 0x0F : Nat) = 0x5 := by decide
  have hv2 : ((0xF5 >>> 4) &&& 0x0F : Nat) = 0xF := by decide
  rw [hv1] at h
  rw [hv2] at h
  have h2 := h.2.1
  rw [show (0 : Int) + 1 = 1 from rfl] at h2
  exact ⟨h.1, h2⟩

/-! ### Claim C9 -/

/-- States reachable from a freshly constructed controller by any sequence of
successful `ProcessCommand` and `WriteData` calls (a failing `WriteData` leaves
the Go receiver unmodified, so only successful calls change state). -/
inductive Reachable : SSD1322 → Prop where
  | init (width height : Nat) : Reachable (NewSSD1322 width height)
  | cmd {s s' : SSD1322} (cmd : Nat) (data : List Nat) :
      Reachable s → s.ProcessCommand cmd data = .ok s' → Reachable s'
  | data {s s' : SSD1322} (bytes : List Nat) :
      Reachable s → s.WriteData bytes = .ok s' → Reachable s'

/-- The addressing-window cursor invariant that actually holds: the cursor
never drops below the window start, and it stays at or below the window end
whenever the window is not inverted (start ≤ end). -/
def cursorInv (s : SSD1322) : Prop :=
  s.columnStart ≤ s.currentColumn ∧ s.rowStart ≤ s.currentRow ∧
  (s.columnStart ≤ s.columnEnd → s.currentColumn ≤ s.columnEnd) ∧
  (s.rowStart ≤ s.rowEnd → s.currentRow ≤ s.rowEnd)

/-- A fresh controller satisfies the cursor invariant. -/
theorem newSSD1322_inv (w h : Nat) : cursorInv (NewSSD1322 w h) :=
  ⟨le_refl _, le_refl _, fun hc => hc, fun hc => hc⟩
/-- `ProcessCommand` preserves the cursor invariant: window-set opcodes reset
the matching cursor to the new start, everything else leaves the window and
cursor untouched. -/
theorem procCmd_inv (s : SSD1322) (cmd : Nat) (data : List Nat) (s' : SSD1322)
    (hp : s.ProcessCommand cmd data = .ok s') (h : cursorInv s) : cursorInv s' := by
  unfold SSD1322.ProcessCommand at hp
  by_cases c0 : cmd = CmdCommandLock
  · rw [if_pos c0] at hp
    rcases data with _ | ⟨d0, rest⟩
    · injection hp with hp
      subst hp
      exact h
    · dsimp only at hp
      by_cases hb : d0 = 0xB1
      · rw [if_pos hb] at hp
        injection hp with hp
        subst hp
        exact h
      · rw [if_neg hb] at hp
        by_cases hb2 : d0 = 0xB0
        · rw [if_pos hb2] at hp
          injection hp with hp
          subst hp
          exact h
        · rw [if_neg hb2] at hp
          injection hp with hp
          subst hp
          exact h
  rw [if_neg c0] at hp
  by_cases c1 : cmd = CmdNormalDisplay
  · rw [if_pos c1] at hp
    injection hp with hp
    subst hp
    exact h
  rw [if_neg c1] at hp
  by_cases c2 : cmd = CmdSleepMode
  · rw [if_pos c2] at hp
    injection hp with hp
    subst hp
    exact h
  rw [if_neg c2] at hp
  by_cases c3 : cmd = CmdWriteRAM
  · rw [if_pos c3] at hp
    injection hp with hp
    subst hp
    exact h
  rw [if_neg c3] at hp
  by_cases c4 : cmd = CmdReadRAM
  · rw [if_pos c4] at hp
    injection hp with hp
    subst hp
    exact h
  rw [if_neg c4] at hp
  by_cases c5 : cmd = CmdSetColumnAddress
  · rw [if_pos c5] at hp
    rcases data with _ | ⟨d0, _ | ⟨d1, rest⟩⟩ <;> injection hp with hp <;> subst hp
    · exact h
    · exact h
    · exact ⟨le_refl _, h.2.1, fun hc => hc, h.2.2.2⟩
  rw [if_neg c5] at hp
  by_cases c6 : cmd = CmdSetRowAddress
  · rw [if_pos c6] at hp
    rcases data with _ | ⟨d0, _ | ⟨d1, rest⟩⟩ <;> injection hp with hp <;> subst hp
    · exact h
    · exact h
    · exact ⟨h.1, le_refl _, h.2.2.1, fun hc => hc⟩
  rw [if_neg c6] at hp
  by_cases c7 : cmd = CmdSetContrast
  · rw [if_pos c7] at hp
    rcases data with _ | ⟨d0, rest⟩ <;> injection hp with hp <;> subst hp <;> exact h
  rw [if_neg c7] at hp
  by_cases c8 : cmd = CmdMasterContrast
  · rw [if_pos c8] at hp
    rcases data with _ | ⟨d0, rest⟩ <;> injection hp with hp <;> subst hp <;> exact h
  rw [if_neg c8] at hp
  by_cases c9 : cmd = CmdInvertDisplay
  · rw [if_pos c9] at hp
    rcases data with _ | ⟨d0, rest⟩ <;> injection hp with hp <;> subst hp <;> exact h
  rw [if_neg c9] at hp
  by_cases c10 : cmd = CmdSetMultiplexRatio
  · rw [if_pos c10] at hp
    rcases data with _ | ⟨d0, rest⟩ <;> injection hp with hp <;> subst hp <;> exact h
  rw [if_neg c10] at hp
  by_cases c11 : cmd = CmdSetStartLine
  · rw [if_pos c11] at hp
    rcases data with _ | ⟨d0, rest⟩ <;> injection hp with hp <;> subst hp <;> exact h
  rw [if_neg c11] at hp
  by_cases c12 : cmd = CmdDisplayOffset
  · rw [if_pos c12] at hp
    rcases data with _ | ⟨d0, rest⟩ <;> injection hp with hp <;> subst hp <;> exact h
  rw [if_neg c12] at hp
  by_cases c13 : cmd = CmdSetRemap
  · rw [if_pos c13] at hp
    rcases data with _ | ⟨d0, rest⟩ <;> injection hp with hp <;> subst hp <;> exact h
  rw [if_neg c13] at hp
  by_cases c14 : cmd = CmdSetClockDivider
  · rw [if_pos c14] at hp
    rcases data with _ | ⟨d0, rest⟩ <;> injection hp with hp <;> subst hp <;> exact h
  rw [if_neg c14] at hp
  by_cases c15 : cmd = CmdSetPhaseLength
  · rw [if_pos c15] at hp
    rcases data with _ | ⟨d0, rest⟩ <;> injection hp with hp <;> subst hp <;> exact h
  rw [if_neg c15] at hp
  by_cases c16 : cmd = CmdEnhanceDisplay
  · rw [if_pos c16] at hp
    injection hp with hp
    subst hp
    exact h
  rw [if_neg c16] at hp
  by_cases c17 : cmd = CmdSetPrecharge
  · rw [if_pos c17] at hp
    rcases data with _ | ⟨d0, rest⟩ <;> injection hp with hp <;> subst hp <;> exact h
  rw [if_neg c17] at hp
  by_cases c18 : cmd = CmdSetVCOMH
  · rw [if_pos c18] at hp
    rcases data with _ | ⟨d0, rest⟩ <;> injection hp with hp <;> subst hp <;> exact h
  rw [if_neg c18] at hp
  by_cases c19 : cmd = CmdGrayscaleTable
  · rw [if_pos c19] at hp
    rcases data with _ | ⟨d0, rest⟩ <;> injection hp with hp <;> subst hp <;> exact h
  rw [if_neg c19] at hp
  by_cases c20 : cmd = CmdDeactivateScroll
  · rw [if_pos c20] at hp
    injection hp with hp
    subst hp
    exact h
  rw [if_neg c20] at hp
  by_cases c21 : cmd = CmdActivateScroll
  · rw [if_pos c21] at hp
    injection hp with hp
    subst hp
    exact h
  rw [if_neg c21] at hp
  by_cases c22 : cmd = CmdHorizontalScroll
  · rw [if_pos c22] at hp
    by_cases hl : data.length ≥ 5
    · rw [if_pos hl] at hp
      injection hp with hp
      subst hp
      exact h
    · rw [if_neg hl] at hp
      injection hp with hp
      subst hp
      exact h
  rw [if_neg c22] at hp
  by_cases c23 : cmd = CmdDisplayMode
  · rw [if_pos c23] at hp
    injection hp with hp
    subst hp
    exact h
  rw [if_neg c23] at hp
  injection hp with hp
  subst hp
  exact h

/-- The cursor-advance block re-establishes the invariant from a cursor that
sits inside the window. -/
theorem advanceCursor_inv (t : SSD1322)
    (hg : t.columnStart ≤ t.currentColumn ∧ t.currentColumn ≤ t.columnEnd ∧
          t.rowStart ≤ t.currentRow ∧ t.currentRow ≤ t.rowEnd) :
    cursorInv t.advanceCursor := by
  obtain ⟨h1, h2, h3, h4⟩ := hg
  unfold SSD1322.advanceCursor cursorInv
  dsimp only
  split <;> (try split) <;>
    refine ⟨?_, ?_, fun hc => ?_, fun hc => ?_⟩ <;> dsimp only at * <;> omega

/-- The payload loop body preserves the cursor invariant. -/
theorem writeDataByte_inv (s : SSD1322) (b : Nat) (h : cursorInv s) :
    cursorInv (s.writeDataByte b) := by
  unfold SSD1322.writeDataByte
  dsimp only
  split
  case isTrue hg =>
    split
    case isTrue hw =>
      apply advanceCursor_inv
      split <;>
        simp only [wnb_columnStart, wnb_columnEnd, wnb_rowStart, wnb_rowEnd,
          wnb_currentColumn, wnb_currentRow] <;>
        exact ⟨hg.1, hg.2.1, hg.2.2.1, hg.2.2.2⟩
    case isFalse => exact h
  case isFalse => exact h

/-- The whole payload loop preserves the cursor invariant. -/
theorem foldl_writeDataByte_inv (data : List Nat) (s : SSD1322) (h : cursorInv s) :
    cursorInv (data.foldl SSD1322.writeDataByte s) := by
  induction data generalizing s with
  | nil => exact h
  | cons d ds ih => exact ih _ (writeDataByte_inv s d h)

/-- Counterexample for C9 as stated: the inverted-window command 0x15 with
arguments [10, 5] is reachable and leaves `currentColumn = 10 > columnEnd = 5`,
so `curCol ∈ [colStart, colEnd]` fails. -/
theorem claim_C9_counterexample :
    (okOr ((NewSSD1322 16 1).ProcessCommand CmdSetColumnAddress [10, 5])
        (NewSSD1322 16 1)).currentColumn = 10 ∧
    (okOr ((NewSSD1322 16 1).ProcessCommand CmdSetColumnAddress [10, 5])
        (NewSSD1322 16 1)).columnEnd = 5 ∧
    ¬((okOr ((NewSSD1322 16 1).ProcessCommand CmdSetColumnAddress [10, 5])
        (NewSSD1322 16 1)).currentColumn ≤
      (okOr ((NewSSD1322 16 1).ProcessCommand CmdSetColumnAddress [10, 5])
        (NewSSD1322 16 1)).columnEnd) := by
  refine ⟨rfl, rfl, by decide⟩

/-- Claim C9 (amended): in every reachable state the cursor satisfies
`colStart ≤ curCol` and `rowStart ≤ curRow`, and additionally
`curCol ≤ colEnd` / `curRow ≤ rowEnd` whenever the corresponding window is not
inverted (`start ≤ end`); during payload writes at an in-window, in-viewport
cursor, column overflow wraps `curCol` to `colStart` and increments `curRow`
(wrapping it to `rowStart` past `rowEnd`), and otherwise `curCol` increments
with `curRow` unchanged. -/
theorem claim_C9_cursor_invariant :
    (∀ s : SSD1322, Reachable s → cursorInv s) ∧
    (∀ (s : SSD1322) (b : Nat),
      (s.columnStart ≤ s.currentColumn ∧ s.currentColumn ≤ s.columnEnd ∧
       s.rowStart ≤ s.currentRow ∧ s.currentRow ≤ s.rowEnd) →
      s.currentColumn - s.columnStart < (s.Width : Int) →
      ((s.currentColumn + 1 > s.columnEnd →
        (s.writeDataByte b).currentColumn = s.columnStart ∧
        (s.writeDataByte b).currentRow =
          (if s.currentRow + 1 > s.rowEnd then s.rowStart else s.currentRow + 1)) ∧
       (¬(s.currentColumn + 1 > s.columnEnd) →
        (s.writeDataByte b).currentColumn = s.currentColumn + 1 ∧
        (s.writeDataByte b).currentRow = s.currentRow))) := by
  constructor
  · intro s hr
    induction hr with
    | init w h => exact newSSD1322_inv w h
    | cmd cmd data hr hp ih => exact procCmd_inv _ cmd data _ hp ih
    | @data sPrev s' bytes hr hp ih =>
      unfold SSD1322.WriteData at hp
      by_cases hdm : sPrev.dataMode = true
      · rw [if_neg (by rw [hdm]; simp)] at hp
        injection hp with hp
        subst hp
        exact foldl_writeDataByte_inv bytes _ ih
      · have hdm2 : sPrev.dataMode = false := by
          cases hb : sPrev.dataMode
          · rfl
          · exact absurd hb hdm
        rw [if_pos (by rw [hdm2]; simp)] at hp
        exact absurd hp (by simp)
  · intro s b hg hwidth
    obtain ⟨h1, h2, h3, h4⟩ := hg
    unfold SSD1322.writeDataByte
    dsimp only
    rw [if_pos ⟨h1, h2, h3, h4⟩, if_pos hwidth]
    split <;>
      (constructor <;> intro hcc <;> constructor <;>
        simp only [advanceCursor_currentColumn, advanceCursor_currentRow, wnb_currentColumn,
          wnb_columnEnd, wnb_columnStart, wnb_currentRow, wnb_rowEnd, wnb_rowStart] <;>
        first
          | rw [if_pos hcc]
          | rw [if_neg hcc])

set_option maxRecDepth 8000 in
/-- Witness for C9 at a concrete input: the initial 256x64 state is reachable
and satisfies the cursor invariant. -/
theorem claim_C9_cursor_invariant_witness : cursorInv (NewSSD1322 256 64) :=
  claim_C9_cursor_invariant.1 (NewSSD1322 256 64) (Reachable.init 256 64)
